import Mathlib

/-!
# ipinfo.now worker: a shallow embedding of `src/worker.js`

The worker is one stateless function from an inbound HTTP request to a
response. JavaScript strings are embedded as Lean `String`s, `null` header
lookups as `Option String`, thrown exceptions as `Except JsError`.
-/

namespace IpInfo

/-! ## JavaScript string primitives -/

/-- Errors a JavaScript expression of the worker could throw. -/
inductive JsError where
  | typeError (msg : String)
  | rangeError (msg : String)
  deriving DecidableEq, Repr

deriving instance DecidableEq for Except

/-- Lower-casing of one character: the letters `A` to `Z` go to `a` to `z`, every
other character stays. The worker lower-cases the URL host name and path,
which the URL parser has already made ASCII, and the User-Agent, of which it
only asks whether the result contains one of three ASCII words. -/
def lowerChar (c : Char) : Char :=
  if 65 ≤ c.toNat ∧ c.toNat ≤ 90 then Char.ofNat (c.toNat + 32) else c

/-- Embedding of `String.prototype.toLowerCase`. -/
def toLowerCase (s : String) : String := ⟨s.data.map lowerChar⟩

/-- Embedding of `String.prototype.includes` on character lists: `sub` occurs
in `s` starting at some position. -/
def includesChars (sub : List Char) : List Char → Bool
  | [] => sub.isPrefixOf []
  | c :: cs => sub.isPrefixOf (c :: cs) || includesChars sub cs

/-- Embedding of `String.prototype.includes`. -/
def includes (s sub : String) : Bool := includesChars sub.data s.data

/-- White space and line terminators of ECMAScript, the characters that
`String.prototype.trim` strips. -/
def isJsWhitespace (c : Char) : Bool :=
  let n := c.toNat
  n = 0x09 || n = 0x0A || n = 0x0B || n = 0x0C || n = 0x0D || n = 0x20 ||
  n = 0xA0 || n = 0x1680 || (0x2000 ≤ n && n ≤ 0x200A) || n = 0x2028 ||
  n = 0x2029 || n = 0x202F || n = 0x205F || n = 0x3000 || n = 0xFEFF

/-- Embedding of `String.prototype.trim` on character lists. -/
def trimChars (cs : List Char) : List Char :=
  ((cs.dropWhile isJsWhitespace).reverse.dropWhile isJsWhitespace).reverse

/-- Embedding of `String.prototype.trim`. -/
def trim (s : String) : String := ⟨trimChars s.data⟩

/-- Embedding of `String.prototype.split` with a one-character separator, on
character lists. The result always has at least one piece. -/
def splitChars (sep : Char) : List Char → List (List Char)
  | [] => [[]]
  | c :: cs =>
    if c = sep then [] :: splitChars sep cs
    else
      match splitChars sep cs with
      | [] => [[c]]
      | piece :: pieces => (c :: piece) :: pieces

/-- Embedding of `String.prototype.split` with a one-character separator. -/
def split (s : String) (sep : Char) : List String :=
  (splitChars sep s.data).map String.mk

/-- The value of `x : string | null` when it is truthy, that is, a string that
is not empty. -/
def whenTruthy : Option String → Option String
  | some s => if s ≠ "" then some s else none
  | none => none

/-- Embedding of `x || d` for `x : string | null` and a string `d`. -/
def orElse (x : Option String) (d : String) : String :=
  match x with
  | some s => if s ≠ "" then s else d
  | none => d

/-! ## Requests and headers -/

/-- ASCII lower-casing of a header name. -/
def lowerName (name : String) : String := ⟨name.data.map lowerChar⟩

/-- A header list, as the runtime hands it to the worker. -/
structure Headers where
  entries : List (String × String)
  deriving DecidableEq, Repr

/-- Embedding of `Headers.prototype.get`: names are matched without regard to
case, the values of all matching entries are joined with a comma and a space,
and the result is `null` when no entry matches. -/
def Headers.get (h : Headers) (name : String) : Option String :=
  match (h.entries.filter (fun e => lowerName e.1 = lowerName name)).map Prod.snd with
  | [] => none
  | v :: vs => some (", ".intercalate (v :: vs))

/-- The parts of `new URL(request.url)` that the worker reads. -/
structure URL where
  hostname : String
  pathname : String
  deriving DecidableEq, Repr

/-- An inbound request. -/
structure Request where
  url : URL
  method : String
  headers : Headers
  deriving DecidableEq, Repr

/-! ## Client IP resolver -/

/-- Embedding of `xs[0].trim()`: indexing past the end gives `undefined`, on
which the method call throws. -/
def firstTrimmed : List String → Except JsError String
  | [] => .error (.typeError "Cannot read properties of undefined (reading 'trim')")
  | x :: _ => .ok (trim x)

/-- Embedding of `getClientIP`. -/
def getClientIP (request : Request) : Except JsError String :=
  let xForwardedFor := request.headers.get "X-Forwarded-For"
  let cfConnectingIP := request.headers.get "CF-Connecting-IP"
  let xRealIP := request.headers.get "X-Real-IP"
  match whenTruthy cfConnectingIP with
  | some ip => .ok ip
  | none =>
    match whenTruthy xRealIP with
    | some ip => .ok ip
    | none =>
      match whenTruthy xForwardedFor with
      | some xff => firstTrimmed (split xff ',')
      | none => .ok "unknown"

/-! ## IP family classifier -/

/-- The fragment of regular-expression syntax that the worker uses. -/
inductive Regex where
  | digit
  | lit (c : Char)
  | seq (a b : Regex)
  | rep (r : Regex) (lo hi : Nat)
  deriving Repr

/-- Backtracking for the bounded quantifier `{lo,hi}`: `step` matches the
quantified atom once; the greedy alternative (one more repetition) is tried
first. Each result is the input left after a match. -/
def Regex.runRep (step : List Char → List (List Char)) (lo : Nat) :
    Nat → List Char → List (List Char)
  | 0, s => if lo = 0 then [s] else []
  | hi + 1, s =>
    (step s).flatMap (Regex.runRep step (lo - 1) hi) ++ (if lo = 0 then [s] else [])

/-- A backtracking matcher: every way to match the pattern at the start of the
input, each given as the input left over, in the order a backtracking engine
tries them. -/
def Regex.run : Regex → List Char → List (List Char)
  | .digit, [] => []
  | .digit, c :: cs => if 48 ≤ c.toNat ∧ c.toNat ≤ 57 then [cs] else []
  | .lit _, [] => []
  | .lit a, c :: cs => if c = a then [cs] else []
  | .seq a b, s => (Regex.run a s).flatMap (Regex.run b)
  | .rep r lo hi, s => Regex.runRep (Regex.run r) lo hi s

/-- Embedding of `/^r$/.test(s)`: without the `m` flag the two anchors tie the
match to the whole input. -/
def Regex.test (r : Regex) (s : String) : Bool :=
  (r.run s.data).any List.isEmpty

/-- The pattern `\d{1,3}\.\d{1,3}\.\d{1,3}\.\d{1,3}` between the anchors. -/
def ipv4Pattern : Regex :=
  .seq (.rep .digit 1 3) (.seq (.lit '.') (.seq (.rep .digit 1 3) (.seq (.lit '.')
    (.seq (.rep .digit 1 3) (.seq (.lit '.') (.rep .digit 1 3))))))

/-- Embedding of `isIPv6`. -/
def isIPv6 (ip : String) : Bool :=
  includes ip ":" && !includes ip "."

/-- Embedding of `isIPv4`. -/
def isIPv4 (ip : String) : Bool :=
  ipv4Pattern.test ip

/-! ## Responses -/

/-- The second argument of `new Response(body, init)`. -/
structure ResponseInit where
  status : Nat
  headers : List (String × String)
  deriving DecidableEq, Repr

/-- An outbound response. -/
structure Response where
  body : String
  status : Nat
  headers : Headers
  deriving DecidableEq, Repr

/-- Embedding of `new Response(body, init)` for a string body: a status outside
200 to 599 throws a `RangeError`, a null-body status with a body throws a
`TypeError`, and a string body without a content type gets the default one. -/
def Response.new (body : String) (init : ResponseInit) : Except JsError Response :=
  if init.status < 200 ∨ 599 < init.status then
    .error (.rangeError "The status provided is outside the range [200, 599].")
  else if init.status = 204 ∨ init.status = 205 ∨ init.status = 304 then
    .error (.typeError "Response with null body status cannot have body")
  else
    match (Headers.mk init.headers).get "Content-Type" with
    | some _ => .ok ⟨body, init.status, ⟨init.headers⟩⟩
    | none =>
      .ok ⟨body, init.status, ⟨init.headers ++ [("content-type", "text/plain;charset=UTF-8")]⟩⟩

/-- Embedding of `s || d` for two strings. -/
def orDefault (s d : String) : String :=
  if s ≠ "" then s else d

/-! ## JSON formatter -/

/-- The property values that the worker serialises. -/
inductive JsonValue where
  | str (s : String)
  | bool (b : Bool)
  deriving DecidableEq, Repr

/-- One lower-case hexadecimal digit. -/
def hexDigit (n : Nat) : Char :=
  if n < 10 then Char.ofNat (48 + n) else Char.ofNat (87 + n)

/-- The escape of one character inside a JSON string, as `JSON.stringify`
writes it. -/
def quoteJSONChar (c : Char) : List Char :=
  if c = '\x08' then ['\\', 'b']
  else if c = '\t' then ['\\', 't']
  else if c = '\n' then ['\\', 'n']
  else if c = '\x0c' then ['\\', 'f']
  else if c = '\r' then ['\\', 'r']
  else if c = '"' then ['\\', '"']
  else if c = '\\' then ['\\', '\\']
  else if c.toNat < 32 then
    ['\\', 'u', '0', '0', hexDigit (c.toNat / 16), hexDigit (c.toNat % 16)]
  else [c]

/-- Embedding of the abstract operation `QuoteJSONString`. -/
def quoteJSONString (s : String) : String :=
  "\"" ++ String.mk (s.data.flatMap quoteJSONChar) ++ "\""

/-- Serialisation of one property value. -/
def JsonValue.serialize : JsonValue → String
  | .str s => quoteJSONString s
  | .bool true => "true"
  | .bool false => "false"

/-- Embedding of `JSON.stringify(obj, null, 2)` for an object given as the list
of its properties in insertion order. -/
def stringify2 (obj : List (String × JsonValue)) : String :=
  match obj with
  | [] => "\x7b\x7d"
  | _ =>
    "\x7b\n" ++
      ",\n".intercalate (obj.map fun p => "  " ++ quoteJSONString p.1 ++ ": " ++ p.2.serialize) ++
      "\n\x7d"

/-! ## HTML formatter -/

/-- The document head up to the style sheet. Lines 222 to 283 of the page template, one entry a line. -/
def pageMeta (service domain : String) : List String :=
  ["<!DOCTYPE html>",
   "<html lang=\"en\">",
   "<head>",
   "    <meta charset=\"UTF-8\">",
   "    <meta name=\"viewport\" content=\"width=device-width, initial-scale=1.0\">",
   "    ",
   "    <!-- SEO Meta Tags -->",
   "    <title>What Is My IP Address? | Free IP Lookup Tool - " ++ service ++ "</title>",
   "    <meta name=\"description\" content=\"Find your public IP address instantly. Free IP lookup tool supporting IPv4 and IPv6. Check your IP, user agent, location and network information with our fast and reliable service.\">",
   "    <meta name=\"keywords\" content=\"what is my ip, ip address, ip lookup, ipv4, ipv6, public ip, check ip, ip location, network tools, ip finder\">",
   "    <meta name=\"author\" content=\"IP.IM\">",
   "    <meta name=\"robots\" content=\"index, follow\">",
   "    <meta name=\"googlebot\" content=\"index, follow\">",
   "    <meta name=\"language\" content=\"English\">",
   "    ",
   "    <!-- Canonical URL -->",
   "    <link rel=\"canonical\" href=\"https://" ++ domain ++ "\">",
   "    ",
   "    <!-- Open Graph Meta Tags -->",
   "    <meta property=\"og:title\" content=\"What Is My IP Address? | Free IP Lookup Tool - " ++ service ++ "\">",
   "    <meta property=\"og:description\" content=\"Find your public IP address instantly. Free IP lookup tool supporting IPv4 and IPv6. Check your IP, user agent, location and network information.\">",
   "    <meta property=\"og:type\" content=\"website\">",
   "    <meta property=\"og:url\" content=\"https://" ++ domain ++ "\">",
   "    <meta property=\"og:site_name\" content=\"" ++ service ++ "\">",
   "    <meta property=\"og:locale\" content=\"en_US\">",
   "    ",
   "    <!-- Twitter Card Meta Tags -->",
   "    <meta name=\"twitter:card\" content=\"summary\">",
   "    <meta name=\"twitter:title\" content=\"What Is My IP Address? | " ++ service ++ "\">",
   "    <meta name=\"twitter:description\" content=\"Find your public IP address instantly. Free IP lookup tool supporting IPv4 and IPv6.\">",
   "    <meta name=\"twitter:site\" content=\"@ipim\">",
   "    ",
   "    <!-- Structured Data -->",
   "    <script type=\"application/ld+json\">",
   "    \x7b",
   "        \"@context\": \"https://schema.org\",",
   "        \"@type\": \"WebApplication\",",
   "        \"name\": \"" ++ service ++ " - IP Address Lookup\",",
   "        \"description\": \"Free online tool to check your public IP address, user agent, and network information\",",
   "        \"url\": \"https://" ++ domain ++ "\",",
   "        \"applicationCategory\": \"NetworkingApplication\",",
   "        \"operatingSystem\": \"Web Browser\",",
   "        \"offers\": \x7b",
   "            \"@type\": \"Offer\",",
   "            \"price\": \"0\",",
   "            \"priceCurrency\": \"USD\"",
   "        \x7d,",
   "        \"provider\": \x7b",
   "            \"@type\": \"Organization\",",
   "            \"name\": \"IP.IM\",",
   "            \"url\": \"https://ip.im\"",
   "        \x7d",
   "    \x7d",
   "    </script>",
   "    ",
   "    <!-- DNS Prefetch -->",
   "    <link rel=\"dns-prefetch\" href=\"//ip.im\">",
   "    ",
   "    <!-- Theme Color -->",
   "    <meta name=\"theme-color\" content=\"#3498db\">",
   "    <meta name=\"msapplication-TileColor\" content=\"#3498db\">",
   "    "]

/-- The style sheet, a constant. Lines 284 to 450 of the page template, one entry a line. -/
def pageStyle : List String :=
  ["    <style>",
   "        body \x7b",
   "            font-family: 'Segoe UI', Tahoma, Geneva, Verdana, sans-serif;",
   "            background-color: #f5f5f5;",
   "            color: #333;",
   "            margin: 0;",
   "            padding: 20px;",
   "            line-height: 1.6;",
   "        \x7d",
   "        .container \x7b",
   "            max-width: 900px;",
   "            margin: 0 auto;",
   "            background-color: #ffffff;",
   "            padding: 30px;",
   "            border-radius: 10px;",
   "            box-shadow: 0 2px 10px rgba(0,0,0,0.1);",
   "            border: 1px solid #ddd;",
   "        \x7d",
   "        h1 \x7b",
   "            color: #2c3e50;",
   "            text-align: center;",
   "            margin-bottom: 30px;",
   "            font-size: 2em;",
   "        \x7d",
   "        .ip-display \x7b",
   "            font-size: 2em;",
   "            text-align: center;",
   "            color: #000000;",
   "            background-color: #f8f9fa;",
   "            padding: 20px;",
   "            border-radius: 8px;",
   "            margin-bottom: 30px;",
   "            border: 2px solid #3498db;",
   "            font-weight: bold;",
   "        \x7d",
   "        .info-table \x7b",
   "            background-color: #ffffff;",
   "            border-collapse: collapse;",
   "            width: 100%;",
   "            margin-bottom: 30px;",
   "            table-layout: fixed;",
   "        \x7d",
   "        .info-table th, .info-table td \x7b",
   "            border: 1px solid #ddd;",
   "            padding: 12px;",
   "            text-align: left;",
   "            vertical-align: top;",
   "        \x7d",
   "        .info-table th:first-child \x7b",
   "            background-color: #3498db;",
   "            color: white;",
   "            font-weight: bold;",
   "            width: 20%;",
   "        \x7d",
   "        .info-table th:last-child \x7b",
   "            background-color: #3498db;",
   "            color: white;",
   "            font-weight: bold;",
   "            width: 80%;",
   "        \x7d",
   "        .info-table td \x7b",
   "            background-color: #f8f9fa;",
   "            word-wrap: break-word;",
   "            word-break: break-all;",
   "            max-width: 0;",
   "        \x7d",
   "        .info-table td.long-content \x7b",
   "            line-height: 1.4;",
   "        \x7d",
   "        .info-table td a \x7b",
   "            color: #3498db;",
   "            text-decoration: none;",
   "            font-weight: bold;",
   "            transition: color 0.3s ease;",
   "        \x7d",
   "        .info-table td a:hover \x7b",
   "            color: #2980b9;",
   "            text-decoration: underline;",
   "        \x7d",
   "        .api-section \x7b",
   "            background-color: #f8f9fa;",
   "            padding: 20px;",
   "            border-radius: 8px;",
   "            border: 1px solid #ddd;",
   "            margin-bottom: 20px;",
   "        \x7d",
   "        .api-section h2 \x7b",
   "            color: #2c3e50;",
   "            margin-top: 0;",
   "            border-bottom: 2px solid #3498db;",
   "            padding-bottom: 10px;",
   "        \x7d",
   "        .api-example \x7b",
   "            background-color: #2c3e50;",
   "            color: #ecf0f1;",
   "            padding: 12px;",
   "            border-radius: 5px;",
   "            margin: 10px 0;",
   "            overflow-x: auto;",
   "            font-family: 'Courier New', monospace;",
   "        \x7d",
   "        .curl-command \x7b",
   "            color: #f39c12;",
   "            font-weight: bold;",
   "        \x7d",
   "        .response \x7b",
   "            color: #2ecc71;",
   "        \x7d",
   "        .service-links \x7b",
   "            text-align: center;",
   "            margin-bottom: 30px;",
   "        \x7d",
   "        .service-links a \x7b",
   "            color: #3498db;",
   "            text-decoration: none;",
   "            margin: 0 15px;",
   "            padding: 12px 20px;",
   "            border: 2px solid #3498db;",
   "            border-radius: 25px;",
   "            display: inline-block;",
   "            font-weight: bold;",
   "            transition: all 0.3s ease;",
   "        \x7d",
   "        .service-links a:hover \x7b",
   "            background-color: #3498db;",
   "            color: white;",
   "            transform: translateY(-2px);",
   "        \x7d",
   "        .footer \x7b",
   "            text-align: center;",
   "            margin-top: 30px;",
   "            color: #7f8c8d;",
   "            font-size: 0.9em;",
   "            border-top: 1px solid #ddd;",
   "            padding-top: 20px;",
   "        \x7d",
   "        .sr-only \x7b",
   "            position: absolute;",
   "            width: 1px;",
   "            height: 1px;",
   "            padding: 0;",
   "            margin: -1px;",
   "            overflow: hidden;",
   "            clip: rect(0, 0, 0, 0);",
   "            white-space: nowrap;",
   "            border: 0;",
   "        \x7d",
   "        h2 \x7b",
   "            color: #2c3e50;",
   "            margin-top: 0;",
   "            border-bottom: 2px solid #3498db;",
   "            padding-bottom: 10px;",
   "        \x7d",
   "        @media (max-width: 768px) \x7b",
   "            .container \x7b",
   "                padding: 20px;",
   "                margin: 10px;",
   "            \x7d",
   "            .ip-display \x7b",
   "                font-size: 1.5em;",
   "            \x7d",
   "            .service-links a \x7b",
   "                display: block;",
   "                margin: 10px 0;",
   "            \x7d",
   "        \x7d",
   "    </style>"]

/-- The end of the head and the page header. Lines 451 to 463 of the page template, one entry a line. -/
def pageHeader (service : String) : List String :=
  ["</head>",
   "<body>",
   "    <div class=\"container\">",
   "        <header>",
   "            <h1>What Is My IP Address? - " ++ service ++ "</h1>",
   "            ",
   "            <nav class=\"service-links\" role=\"navigation\" aria-label=\"Service navigation\">",
   "                <a href=\"https://ipinfo.now\" aria-label=\"Complete IP information service\">ipinfo.now</a>",
   "                <a href=\"https://ip4.now\" aria-label=\"IPv4 only IP lookup service\">IP4.NOW</a>",
   "                <a href=\"https://ip6.now\" aria-label=\"IPv6 preferred IP lookup service\">IP6.NOW</a>",
   "            </nav>",
   "        </header>",
   "        "]

/-- The IP display. Lines 464 to 471 of the page template, one entry a line. -/
def ipSection (clientIP : String) : List String :=
  ["        <main>",
   "            <section class=\"ip-section\" aria-labelledby=\"your-ip\">",
   "                <h2 id=\"your-ip\" class=\"sr-only\">Your IP Address</h2>",
   "                <div class=\"ip-display\" role=\"banner\" aria-live=\"polite\">",
   "                    " ++ clientIP,
   "                </div>",
   "            </section>",
   "            "]

/-- The details table. Lines 472 to 492 of the page template, one entry a line. -/
def detailsSection (clientIP userAgent acceptLanguage referer method acceptEncoding accept
    connection via xForwardedFor : String) : List String :=
  ["            <section class=\"details-section\" aria-labelledby=\"details-heading\">",
   "                <h2 id=\"details-heading\" class=\"sr-only\">Network Details</h2>",
   "                <table class=\"info-table\" role=\"table\" aria-label=\"Network information details\">",
   "                    <thead>",
   "                        <tr><th scope=\"col\">Property</th><th scope=\"col\">Value</th></tr>",
   "                    </thead>",
   "                    <tbody>",
   "                        <tr><td>IP Address</td><td><a href=\"https://ip.im/" ++ clientIP ++ "\" target=\"_blank\" rel=\"noopener noreferrer\" style=\"color: #3498db; text-decoration: none; font-weight: bold;\">" ++ clientIP ++ "</a></td></tr>",
   "                        <tr><td>User Agent</td><td class=\"long-content\">" ++ orDefault userAgent "N/A" ++ "</td></tr>",
   "                        <tr><td>Language</td><td>" ++ orDefault acceptLanguage "N/A" ++ "</td></tr>",
   "                        <tr><td>Referer</td><td>" ++ orDefault referer "N/A" ++ "</td></tr>",
   "                        <tr><td>Method</td><td>" ++ method ++ "</td></tr>",
   "                        <tr><td>Encoding</td><td>" ++ orDefault acceptEncoding "N/A" ++ "</td></tr>",
   "                        <tr><td>MIME Type</td><td class=\"long-content\">" ++ orDefault accept "N/A" ++ "</td></tr>",
   "                        <tr><td>Connection</td><td>" ++ orDefault connection "N/A" ++ "</td></tr>",
   "                        <tr><td>Via</td><td>" ++ orDefault via "N/A" ++ "</td></tr>",
   "                        <tr><td>X-Forwarded-For</td><td>" ++ orDefault xForwardedFor "N/A" ++ "</td></tr>",
   "                    </tbody>",
   "                </table>",
   "            </section>",
   "            "]

/-- The API examples. Lines 493 to 536 of the page template, one entry a line. -/
def apiSection (domain clientIP userAgent acceptLanguage acceptEncoding accept referer
    xForwardedFor : String) : List String :=
  ["            <section class=\"api-section\" aria-labelledby=\"api-heading\">",
   "                <h2 id=\"api-heading\">🔗 API Endpoints</h2>",
   "            <div class=\"api-example\">",
   "                <div class=\"curl-command\">$ curl " ++ domain ++ "</div>",
   "                <div class=\"response\">⇒ " ++ clientIP ++ "</div>",
   "            </div>",
   "            <div class=\"api-example\">",
   "                <div class=\"curl-command\">$ curl " ++ domain ++ "/ip</div>",
   "                <div class=\"response\">⇒ " ++ clientIP ++ "</div>",
   "            </div>",
   "            <div class=\"api-example\">",
   "                <div class=\"curl-command\">$ curl " ++ domain ++ "/ua</div>",
   "                <div class=\"response\">⇒ " ++ userAgent ++ "</div>",
   "            </div>",
   "            <div class=\"api-example\">",
   "                <div class=\"curl-command\">$ curl " ++ domain ++ "/lang</div>",
   "                <div class=\"response\">⇒ " ++ acceptLanguage ++ "</div>",
   "            </div>",
   "            <div class=\"api-example\">",
   "                <div class=\"curl-command\">$ curl " ++ domain ++ "/encoding</div>",
   "                <div class=\"response\">⇒ " ++ acceptEncoding ++ "</div>",
   "            </div>",
   "            <div class=\"api-example\">",
   "                <div class=\"curl-command\">$ curl " ++ domain ++ "/mime</div>",
   "                <div class=\"response\">⇒ " ++ accept ++ "</div>",
   "            </div>",
   "            <div class=\"api-example\">",
   "                <div class=\"curl-command\">$ curl " ++ domain ++ "/referer</div>",
   "                <div class=\"response\">⇒ " ++ referer ++ "</div>",
   "            </div>",
   "            <div class=\"api-example\">",
   "                <div class=\"curl-command\">$ curl " ++ domain ++ "/forwarded</div>",
   "                <div class=\"response\">⇒ " ++ xForwardedFor ++ "</div>",
   "            </div>",
   "            <div class=\"api-example\">",
   "                <div class=\"curl-command\">$ curl " ++ domain ++ "/all</div>",
   "                <div class=\"response\">⇒ [All information in text format]</div>",
   "            </div>",
   "            <div class=\"api-example\">",
   "                <div class=\"curl-command\">$ curl " ++ domain ++ "/json</div>",
   "                <div class=\"response\">⇒ [All information in JSON format]</div>",
   "            </div>",
   "            </section>",
   "            "]

/-- The service descriptions and the footer. Lines 537 to 554 of the page template, one entry a line. -/
def pageFooter : List String :=
  ["            <section class=\"api-section\" aria-labelledby=\"services-heading\">",
   "                <h2 id=\"services-heading\">🌐 Service Descriptions</h2>",
   "                <div style=\"background-color: white; padding: 15px; border-radius: 5px; border-left: 4px solid #3498db;\">",
   "                    <p><strong style=\"color: #2c3e50;\">ipinfo.now:</strong> Complete IP information service with full feature set</p>",
   "                    <p><strong style=\"color: #2c3e50;\">IP4.NOW:</strong> IPv4-only service, returns IPv4 addresses exclusively</p>",
   "                    <p><strong style=\"color: #2c3e50;\">IP6.NOW:</strong> IPv6-preferred service, returns IPv6 when available, falls back to IPv4</p>",
   "                    <p style=\"color: #7f8c8d; font-style: italic;\">All services support CURL, HTTP, and HTTPS access methods.</p>",
   "                </div>",
   "            </section>",
   "        </main>",
   "        ",
   "        <footer class=\"footer\" role=\"contentinfo\">",
   "            <p><strong>IP Query Service</strong> - Powered by <a href=\"https://ip.im\" target=\"_blank\" rel=\"noopener noreferrer\" style=\"color: #3498db; text-decoration: none; font-weight: bold;\">IP.IM</a></p>",
   "            <p>Fast, reliable, and privacy-focused IP detection</p>",
   "        </footer>",
   "    </div>",
   "</body>",
   "</html>"]

/-- Embedding of `generateHTMLResponse`. The two classifier results that the
function computes and never reads are left out. -/
def generateHTMLResponse (clientIP : String) (request : Request) (service : String) :
    Except JsError Response :=
  let userAgent := orElse (request.headers.get "User-Agent") ""
  let acceptLanguage := orElse (request.headers.get "Accept-Language") ""
  let acceptEncoding := orElse (request.headers.get "Accept-Encoding") ""
  let accept := orElse (request.headers.get "Accept") ""
  let referer := orElse (request.headers.get "Referer") ""
  let xForwardedFor := orElse (request.headers.get "X-Forwarded-For") ""
  let connection := orElse (request.headers.get "Connection") ""
  let via := orElse (request.headers.get "Via") ""
  let method := request.method
  let domain :=
    if service = "IP4.NOW" then "ip4.now"
    else if service = "IP6.NOW" then "ip6.now" else "ipinfo.now"
  let html := "\n".intercalate
    (pageMeta service domain ++ pageStyle ++ pageHeader service ++ ipSection clientIP ++
      detailsSection clientIP userAgent acceptLanguage referer method acceptEncoding accept
        connection via xForwardedFor ++
      apiSection domain clientIP userAgent acceptLanguage acceptEncoding accept referer
        xForwardedFor ++
      pageFooter)
  Response.new html ⟨200, [("Content-Type", "text/html;charset=UTF-8")]⟩

/-! ## Response router -/

/-- The response init of every plain-text endpoint. -/
def textPlain : ResponseInit := ⟨200, [("Content-Type", "text/plain")]⟩

/-- Embedding of `handleIPRequest`. -/
def handleIPRequest (pathname clientIP : String) (request : Request) (isCLI : Bool)
    (service : String) : Except JsError Response :=
  let userAgent := orElse (request.headers.get "User-Agent") ""
  let acceptLanguage := orElse (request.headers.get "Accept-Language") ""
  let acceptEncoding := orElse (request.headers.get "Accept-Encoding") ""
  let accept := orElse (request.headers.get "Accept") ""
  let referer := orElse (request.headers.get "Referer") ""
  let xForwardedFor := orElse (request.headers.get "X-Forwarded-For") ""
  let connection := orElse (request.headers.get "Connection") ""
  let via := orElse (request.headers.get "Via") ""
  let method := request.method
  match pathname with
  | "/" =>
    if isCLI then Response.new (clientIP ++ "\n") textPlain
    else generateHTMLResponse clientIP request service
  | "/ip" => Response.new (clientIP ++ "\n") textPlain
  | "/ua" => Response.new (userAgent ++ "\n") textPlain
  | "/user-agent" => Response.new (userAgent ++ "\n") textPlain
  | "/lang" => Response.new (acceptLanguage ++ "\n") textPlain
  | "/language" => Response.new (acceptLanguage ++ "\n") textPlain
  | "/encoding" => Response.new (acceptEncoding ++ "\n") textPlain
  | "/mime" => Response.new (accept ++ "\n") textPlain
  | "/referer" => Response.new (referer ++ "\n") textPlain
  | "/forwarded" => Response.new (xForwardedFor ++ "\n") textPlain
  | "/all" =>
    let allInfo := "\n".intercalate
      ["ip_addr: " ++ clientIP,
       "user_agent: " ++ userAgent,
       "language: " ++ acceptLanguage,
       "referer: " ++ referer,
       "connection: " ++ connection,
       "method: " ++ method,
       "encoding: " ++ acceptEncoding,
       "mime: " ++ accept,
       "via: " ++ via,
       "forwarded: " ++ xForwardedFor] ++ "\n"
    Response.new allInfo textPlain
  | "/all.json" | "/json" =>
    let jsonData : List (String × JsonValue) :=
      [("ip_addr", .str clientIP),
       ("user_agent", .str userAgent),
       ("language", .str acceptLanguage),
       ("referer", .str referer),
       ("connection", .str connection),
       ("method", .str method),
       ("encoding", .str acceptEncoding),
       ("mime", .str accept),
       ("via", .str via),
       ("forwarded", .str xForwardedFor),
       ("ipv4", .bool (isIPv4 clientIP)),
       ("ipv6", .bool (isIPv6 clientIP))]
    Response.new (stringify2 jsonData) ⟨200, [("Content-Type", "application/json")]⟩
  | _ =>
    if isCLI then Response.new (clientIP ++ "\n") textPlain
    else generateHTMLResponse clientIP request service

/-! ## Service selector -/

/-- Embedding of `handleIP4Request`. -/
def handleIP4Request (pathname clientIP : String) (request : Request) (isCLI : Bool) :
    Except JsError Response :=
  if !isIPv4 clientIP then
    if isCLI then Response.new "IPv4 not available\n" ⟨200, []⟩
    else generateHTMLResponse "IPv4 not available" request "IP4.NOW"
  else handleIPRequest pathname clientIP request isCLI "IP4.NOW"

/-- Embedding of `handleIP6Request`. -/
def handleIP6Request (pathname clientIP : String) (request : Request) (isCLI : Bool) :
    Except JsError Response :=
  handleIPRequest pathname clientIP request isCLI "IP6.NOW"

/-- Embedding of `handleMainRequest`. -/
def handleMainRequest (pathname clientIP : String) (request : Request) (isCLI : Bool) :
    Except JsError Response :=
  handleIPRequest pathname clientIP request isCLI "ipinfo.now"

/-- Embedding of `handleRequest`. The header reads whose results the function
never uses are left out. -/
def handleRequest (request : Request) : Except JsError Response := do
  let hostname := toLowerCase request.url.hostname
  let pathname := toLowerCase request.url.pathname
  let clientIP ← getClientIP request
  let userAgent := orElse (request.headers.get "User-Agent") ""
  let accept := orElse (request.headers.get "Accept") ""
  let isCLI := includes (toLowerCase userAgent) "curl" ||
               includes (toLowerCase userAgent) "wget" ||
               includes (toLowerCase userAgent) "httpie" ||
               !includes accept "text/html"
  if includes hostname "ip4.now" then
    handleIP4Request pathname clientIP request isCLI
  else if includes hostname "ip6.now" then
    handleIP6Request pathname clientIP request isCLI
  else
    handleMainRequest pathname clientIP request isCLI

/-! ## Requests used as concrete inputs -/

/-- A request whose `CF-Connecting-IP` header is present and empty. -/
def cfEmptyRequest : Request :=
  ⟨⟨"ipinfo.now", "/ip"⟩, "GET", ⟨[("CF-Connecting-IP", ""), ("X-Real-IP", "10.0.0.1")]⟩⟩

/-- A request whose only IP-related header is an empty `X-Forwarded-For`. -/
def xffEmptyRequest : Request :=
  ⟨⟨"ipinfo.now", "/ip"⟩, "GET", ⟨[("X-Forwarded-For", "")]⟩⟩

/-- A request with all three IP-related headers. -/
def allIpHeadersRequest : Request :=
  ⟨⟨"ipinfo.now", "/ip"⟩, "GET",
    ⟨[("X-Forwarded-For", "203.0.113.7, 10.0.0.2"), ("CF-Connecting-IP", "198.51.100.4"),
      ("X-Real-IP", "10.0.0.1")]⟩⟩

/-- A request whose only IP-related header is `X-Forwarded-For: " a, b, c"`. -/
def xffOnlyRequest : Request :=
  ⟨⟨"ipinfo.now", "/ip"⟩, "GET", ⟨[("X-Forwarded-For", " a, b, c")]⟩⟩

/-- A browser request for the root path on the default host. -/
def browserRootRequest : Request :=
  ⟨⟨"ipinfo.now", "/"⟩, "GET",
    ⟨[("User-Agent", "Mozilla/5.0 (X11; Linux x86_64)"),
      ("Accept", "text/html,application/xhtml+xml"), ("CF-Connecting-IP", "198.51.100.4")]⟩⟩

/-- A curl request for the root path on the default host. -/
def curlRootRequest : Request :=
  ⟨⟨"ipinfo.now", "/"⟩, "GET",
    ⟨[("User-Agent", "curl/7.0"), ("Accept", "*/*"), ("CF-Connecting-IP", "198.51.100.4")]⟩⟩

/-- A browser request to the IPv4-only host from an IPv6 address. -/
def ip4HostV6Request : Request :=
  ⟨⟨"ip4.now", "/json"⟩, "GET",
    ⟨[("User-Agent", "Mozilla/5.0 (X11; Linux x86_64)"),
      ("Accept", "text/html,application/xhtml+xml"), ("CF-Connecting-IP", "2001:db8::1")]⟩⟩

/-- A request for `/all` on the default host. -/
def allRequest : Request :=
  ⟨⟨"ipinfo.now", "/ALL"⟩, "GET",
    ⟨[("User-Agent", "test-agent"), ("Accept-Language", "en-US"),
      ("X-Real-IP", "198.51.100.4")]⟩⟩

/-- A request for `/json` on the default host. -/
def jsonRequest : Request :=
  ⟨⟨"ipinfo.now", "/json"⟩, "GET",
    ⟨[("User-Agent", "test-agent"), ("Accept-Language", "en-US"),
      ("X-Real-IP", "198.51.100.4")]⟩⟩

/-- A request without IP-related headers. -/
def noIpHeadersRequest : Request :=
  ⟨⟨"ipinfo.now", "/ip"⟩, "GET", ⟨[("User-Agent", "curl/7.0"), ("Accept", "*/*")]⟩⟩

/-- A request whose `X-Real-IP` header is present and empty. -/
def realIpEmptyRequest : Request :=
  ⟨⟨"ipinfo.now", "/ip"⟩, "GET", ⟨[("X-Real-IP", ""), ("X-Forwarded-For", "203.0.113.7")]⟩⟩

/-- A request with `X-Real-IP` and `X-Forwarded-For` and no `CF-Connecting-IP`. -/
def realIpRequest : Request :=
  ⟨⟨"ipinfo.now", "/ip"⟩, "GET",
    ⟨[("X-Forwarded-For", "203.0.113.7, 10.0.0.2"), ("X-Real-IP", "10.0.0.1")]⟩⟩

/-- A wget request to the IPv4-only host from an IPv6 address. -/
def wgetIp4Request : Request :=
  ⟨⟨"ip4.now", "/"⟩, "GET",
    ⟨[("User-Agent", "Wget/1.21.4"), ("Accept", "*/*"), ("CF-Connecting-IP", "2001:db8::1")]⟩⟩

/-- A curl request for `/ip` to the IPv4-only host from an IPv6 address. -/
def curlIp4HostV6Request : Request :=
  ⟨⟨"ip4.now", "/ip"⟩, "GET",
    ⟨[("User-Agent", "curl/7.0"), ("Accept", "*/*"), ("CF-Connecting-IP", "2001:db8::1")]⟩⟩

/-- A curl request for `/ip` to the IPv4-only host from an IPv4 address. -/
def curlIp4HostV4Request : Request :=
  ⟨⟨"ip4.now", "/ip"⟩, "GET",
    ⟨[("User-Agent", "curl/7.0"), ("Accept", "*/*"), ("CF-Connecting-IP", "198.51.100.4")]⟩⟩

/-- A browser request for `/User-Agent` to the IPv6-preferred host. -/
def browserUaRequest : Request :=
  ⟨⟨"ip6.now", "/User-Agent"⟩, "GET",
    ⟨[("User-Agent", "Mozilla/5.0 (X11; Linux x86_64)"),
      ("Accept", "text/html,application/xhtml+xml"), ("CF-Connecting-IP", "2001:db8::1")]⟩⟩

/-- A request for `/JSON`, the upper-case spelling of `/json`. -/
def upperJsonRequest : Request :=
  ⟨⟨"ipinfo.now", "/JSON"⟩, "GET",
    ⟨[("User-Agent", "test-agent"), ("Accept-Language", "en-US"),
      ("X-Real-IP", "198.51.100.4")]⟩⟩

/-- A browser request whose User-Agent holds markup. -/
def markupRequest : Request :=
  ⟨⟨"ipinfo.now", "/"⟩, "GET",
    ⟨[("User-Agent", "<script>alert(1)</script>"), ("Accept", "text/html"),
      ("Referer", ""), ("CF-Connecting-IP", "198.51.100.4")]⟩⟩

/-- A request whose only IP-related header is `X-Forwarded-For: ", 10.0.0.1"`. -/
def xffLeadingCommaRequest : Request :=
  ⟨⟨"ipinfo.now", "/ip"⟩, "GET", ⟨[("X-Forwarded-For", ", 10.0.0.1")]⟩⟩

/-! ## The specification's notions -/

/-- A decimal digit, in the words of the specification. -/
def IsDecimalDigit (c : Char) : Prop := c ∈ ['0', '1', '2', '3', '4', '5', '6', '7', '8', '9']

instance (c : Char) : Decidable (IsDecimalDigit c) := by
  unfold IsDecimalDigit; infer_instance

/-- A group of the dotted quad, in the words of the specification: one to three
decimal digits. -/
def IsDigitGroup (g : List Char) : Prop :=
  1 ≤ g.length ∧ g.length ≤ 3 ∧ ∀ c ∈ g, IsDecimalDigit c

instance (g : List Char) : Decidable (IsDigitGroup g) := by
  unfold IsDigitGroup; infer_instance

/-- The dotted-quad shape, in the words of the specification: exactly four
groups separated by single dots, with nothing before or after. -/
def IsDottedQuad (s : String) : Prop :=
  ∃ a b c d, IsDigitGroup a ∧ IsDigitGroup b ∧ IsDigitGroup c ∧ IsDigitGroup d ∧
    s.data = a ++ '.' :: (b ++ '.' :: (c ++ '.' :: d))

/-- Substring containment: `sub` occurs somewhere in `s`. -/
def Contains (s sub : String) : Prop := sub.data <:+: s.data

instance (s sub : String) : Decidable (Contains s sub) := by
  unfold Contains; infer_instance

/-- A header of the request, the empty string when it is absent. -/
def headerOrEmpty (request : Request) (name : String) : String :=
  (request.headers.get name).getD ""

/-- The client-kind rule, in the words of the specification. -/
def IsCLI (request : Request) : Prop :=
  Contains (toLowerCase (headerOrEmpty request "User-Agent")) "curl" ∨
    Contains (toLowerCase (headerOrEmpty request "User-Agent")) "wget" ∨
    Contains (toLowerCase (headerOrEmpty request "User-Agent")) "httpie" ∨
    ¬ Contains (headerOrEmpty request "Accept") "text/html"

instance (request : Request) : Decidable (IsCLI request) := by
  unfold IsCLI; infer_instance

/-- The plain-text formatter, in the words of the specification: the value and
a newline, status 200, content type `text/plain`. -/
def plainText (value : String) : Response :=
  ⟨value ++ "\n", 200, ⟨[("Content-Type", "text/plain")]⟩⟩

/-- The ten labelled fields of `/all`, in the order of the specification. -/
def allFields (request : Request) (ip : String) : List (String × String) :=
  [("ip_addr", ip),
   ("user_agent", headerOrEmpty request "User-Agent"),
   ("language", headerOrEmpty request "Accept-Language"),
   ("referer", headerOrEmpty request "Referer"),
   ("connection", headerOrEmpty request "Connection"),
   ("method", request.method),
   ("encoding", headerOrEmpty request "Accept-Encoding"),
   ("mime", headerOrEmpty request "Accept"),
   ("via", headerOrEmpty request "Via"),
   ("forwarded", headerOrEmpty request "X-Forwarded-For")]

/-- One line of `/all`: the key, a colon and a space, the value, a newline. -/
def labelledLine (kv : String × String) : String :=
  kv.1 ++ ": " ++ kv.2 ++ "\n"

/-- The twelve properties of `/json`, in the order of the specification. -/
def jsonFields (request : Request) (ip : String) : List (String × JsonValue) :=
  (allFields request ip).map (fun kv => (kv.1, JsonValue.str kv.2)) ++
    [("ipv4", .bool (isIPv4 ip)), ("ipv6", .bool (isIPv6 ip))]

/-- No header value of the request and not its method holds a line feed, as
HTTP requires. -/
def NoLineFeed (request : Request) : Prop :=
  (∀ e ∈ request.headers.entries, '\n' ∉ e.2.data) ∧ '\n' ∉ request.method.data

instance (request : Request) : Decidable (NoLineFeed request) := by
  unfold NoLineFeed; infer_instance

/-- The paths that the response router names. -/
def routedPaths : List String :=
  ["/", "/ip", "/ua", "/user-agent", "/lang", "/language", "/encoding", "/mime", "/referer",
    "/forwarded", "/all", "/json", "/all.json"]

/-- The paths whose response never is the HTML page. -/
def plainPaths : List String :=
  ["/ip", "/ua", "/user-agent", "/lang", "/language", "/encoding", "/mime", "/referer",
    "/forwarded", "/all", "/json", "/all.json"]

/-- The plain-text "IPv4 not available" message: the constructor is given no
content type, so the response carries the default one of a string body. -/
def ip4NotAvailableText : Response :=
  ⟨"IPv4 not available\n", 200, ⟨[("content-type", "text/plain;charset=UTF-8")]⟩⟩

/-- The value that a row of the details table shows for a header: its value,
and "N/A" when the header is empty or absent. -/
def valueOrNA (request : Request) (name : String) : String :=
  match request.headers.get name with
  | some v => if v = "" then "N/A" else v
  | none => "N/A"

/-- The header rows of the details table: the text of the row before the value,
and the header whose value the row shows. -/
def headerRows : List (String × String) :=
  [("<tr><td>User Agent</td><td class=\"long-content\">", "User-Agent"),
   ("<tr><td>Language</td><td>", "Accept-Language"),
   ("<tr><td>Referer</td><td>", "Referer"),
   ("<tr><td>Encoding</td><td>", "Accept-Encoding"),
   ("<tr><td>MIME Type</td><td class=\"long-content\">", "Accept"),
   ("<tr><td>Connection</td><td>", "Connection"),
   ("<tr><td>Via</td><td>", "Via"),
   ("<tr><td>X-Forwarded-For</td><td>", "X-Forwarded-For")]

/-- A header row of the details table, as the specification describes it. -/
def detailsRow (request : Request) (row : String × String) : String :=
  row.1 ++ valueOrNA request row.2 ++ "</td></tr>"

/-- The IP display of the page with the value it embeds. -/
def ipDisplay (clientIP : String) : String :=
  "<div class=\"ip-display\" role=\"banner\" aria-live=\"polite\">" ++ "\n" ++
    "                    " ++ clientIP ++ "\n" ++ "                </div>"

/-- The API examples that embed a value of the request: the path of the
example and the value. -/
def apiExamples (request : Request) (clientIP : String) : List (String × String) :=
  [("", clientIP),
   ("/ip", clientIP),
   ("/ua", headerOrEmpty request "User-Agent"),
   ("/lang", headerOrEmpty request "Accept-Language"),
   ("/encoding", headerOrEmpty request "Accept-Encoding"),
   ("/mime", headerOrEmpty request "Accept"),
   ("/referer", headerOrEmpty request "Referer"),
   ("/forwarded", headerOrEmpty request "X-Forwarded-For")]

/-- An API example of the page: the command line and the response line. -/
def apiExample (domain : String) (ex : String × String) : String :=
  "<div class=\"curl-command\">$ curl " ++ domain ++ ex.1 ++ "</div>" ++ "\n" ++
    "                <div class=\"response\">⇒ " ++ ex.2 ++ "</div>"

/-- The domain that the page shows for a service label. -/
def serviceDomain (service : String) : String :=
  if service = "IP4.NOW" then "ip4.now"
  else if service = "IP6.NOW" then "ip6.now" else "ipinfo.now"

/-- The lines of the page that `generateHTMLResponse` renders. -/
def pageLines (clientIP : String) (request : Request) (service : String) : List String :=
  pageMeta service (serviceDomain service) ++ pageStyle ++ pageHeader service ++
    ipSection clientIP ++
    detailsSection clientIP (headerOrEmpty request "User-Agent")
      (headerOrEmpty request "Accept-Language") (headerOrEmpty request "Referer")
      request.method (headerOrEmpty request "Accept-Encoding")
      (headerOrEmpty request "Accept") (headerOrEmpty request "Connection")
      (headerOrEmpty request "Via") (headerOrEmpty request "X-Forwarded-For") ++
    apiSection (serviceDomain service) clientIP (headerOrEmpty request "User-Agent")
      (headerOrEmpty request "Accept-Language") (headerOrEmpty request "Accept-Encoding")
      (headerOrEmpty request "Accept") (headerOrEmpty request "Referer")
      (headerOrEmpty request "X-Forwarded-For") ++
    pageFooter

/-! ## Lemmas on the string primitives -/

theorem whenTruthy_some {v : String} (hv : v ≠ "") : whenTruthy (some v) = some v := by
  simp [whenTruthy, hv]

theorem whenTruthy_none : whenTruthy none = none := rfl

theorem splitChars_head (sep : Char) (cs : List Char) :
    ∃ rest, splitChars sep cs = cs.takeWhile (fun c => decide (c ≠ sep)) :: rest := by
  induction cs with
  | nil => exact ⟨[], rfl⟩
  | cons c cs ih =>
    obtain ⟨rest, hrest⟩ := ih
    by_cases hc : c = sep
    · exact ⟨splitChars sep cs, by simp [splitChars, hc]⟩
    · exact ⟨rest, by simp [splitChars, hc, hrest]⟩

theorem firstTrimmed_split (v : String) :
    firstTrimmed (split v ',') =
      .ok (trim ⟨v.data.takeWhile (fun c => decide (c ≠ ','))⟩) := by
  obtain ⟨rest, hrest⟩ := splitChars_head ',' v.data
  simp [split, hrest, firstTrimmed]

/-- What `trim` does: it removes a run of white space at each end, and what is
left neither starts nor ends with white space. -/
theorem trimChars_spec (cs : List Char) :
    ∃ l t, cs = l ++ trimChars cs ++ t ∧
      (∀ c ∈ l, isJsWhitespace c = true) ∧ (∀ c ∈ t, isJsWhitespace c = true) ∧
      (∀ c ∈ (trimChars cs).head?, isJsWhitespace c = false) ∧
      (∀ c ∈ (trimChars cs).getLast?, isJsWhitespace c = false) := by
  have hd : ∀ c ∈ (cs.dropWhile isJsWhitespace).head?, isJsWhitespace c = false := by
    intro c hc
    have := List.head?_dropWhile_not isJsWhitespace cs
    rw [Option.mem_def.mp hc] at this
    simpa using this
  have hlast : ∀ c ∈ (trimChars cs).getLast?, isJsWhitespace c = false := by
    intro c hc
    have := List.head?_dropWhile_not isJsWhitespace (cs.dropWhile isJsWhitespace).reverse
    rw [trimChars, List.getLast?_reverse] at hc
    rw [Option.mem_def.mp hc] at this
    simpa using this
  have hsplit : cs.dropWhile isJsWhitespace =
      trimChars cs ++ ((cs.dropWhile isJsWhitespace).reverse.takeWhile isJsWhitespace).reverse := by
    rw [trimChars, ← List.reverse_append, List.takeWhile_append_dropWhile, List.reverse_reverse]
  refine ⟨cs.takeWhile isJsWhitespace,
    ((cs.dropWhile isJsWhitespace).reverse.takeWhile isJsWhitespace).reverse, ?_, ?_, ?_, ?_, hlast⟩
  · rw [List.append_assoc, ← hsplit, List.takeWhile_append_dropWhile]
  · intro c hc
    exact List.mem_takeWhile_imp hc
  · intro c hc
    exact List.mem_takeWhile_imp (List.mem_reverse.mp hc)
  · intro c hc
    apply hd c
    rw [hsplit]
    cases htr : trimChars cs with
    | nil => rw [htr] at hc; simp at hc
    | cons a as => rw [htr] at hc; simpa using hc

/-- The text before the first comma of a string. -/
theorem takeWhile_before_comma (cs : List Char) :
    ',' ∉ cs.takeWhile (fun c => decide (c ≠ ',')) ∧
      (cs = cs.takeWhile (fun c => decide (c ≠ ',')) ∨
        ∃ rest, cs = cs.takeWhile (fun c => decide (c ≠ ',')) ++ ',' :: rest) := by
  constructor
  · intro h
    have := List.mem_takeWhile_imp h
    simp at this
  · induction cs with
    | nil => left; rfl
    | cons c cs ih =>
      by_cases hc : c = ','
      · right; exact ⟨cs, by simp [hc]⟩
      · rcases ih with h | ⟨rest, h⟩
        · left
          have hstep : (c :: cs).takeWhile (fun c => decide (c ≠ ',')) =
              c :: cs.takeWhile (fun c => decide (c ≠ ',')) := by simp [hc]
          rw [hstep, ← h]
        · right
          refine ⟨rest, ?_⟩
          have hstep : (c :: cs).takeWhile (fun c => decide (c ≠ ',')) =
              c :: cs.takeWhile (fun c => decide (c ≠ ',')) := by simp [hc]
          rw [hstep, List.cons_append, ← h]

/-! ## Lemmas on the pattern matcher -/

theorem isDecimalDigit_iff (c : Char) : IsDecimalDigit c ↔ 48 ≤ c.toNat ∧ c.toNat ≤ 57 := by
  constructor
  · intro h
    simp only [IsDecimalDigit, List.mem_cons, List.mem_singleton, List.not_mem_nil, or_false] at h
    rcases h with h | h | h | h | h | h | h | h | h | h <;> subst h <;> decide
  · rintro ⟨h1, h2⟩
    have hc : c = Char.ofNat c.toNat := (Char.ofNat_toNat c).symm
    generalize c.toNat = n at hc h1 h2
    subst hc
    interval_cases n <;> decide

theorem mem_run_digit (s rest : List Char) :
    rest ∈ Regex.run .digit s ↔ ∃ c, IsDecimalDigit c ∧ s = c :: rest := by
  cases s with
  | nil => simp [Regex.run]
  | cons c cs =>
    simp only [Regex.run, isDecimalDigit_iff]
    split <;> rename_i h
    · constructor
      · intro hm
        simp at hm
        exact ⟨c, h, by rw [hm]⟩
      · rintro ⟨c', _, heq⟩
        simp at heq
        simp [heq.2]
    · constructor
      · intro hm; simp at hm
      · rintro ⟨c', hc', heq⟩
        simp at heq
        rw [← heq.1] at hc'
        exact absurd hc' h

theorem mem_run_lit (a : Char) (s rest : List Char) :
    rest ∈ Regex.run (.lit a) s ↔ s = a :: rest := by
  cases s with
  | nil => simp [Regex.run]
  | cons c cs =>
    simp only [Regex.run]
    split <;> rename_i h
    · subst h; simp [eq_comm]
    · simp [h]

theorem mem_run_seq (a b : Regex) (s rest : List Char) :
    rest ∈ Regex.run (.seq a b) s ↔ ∃ mid, mid ∈ Regex.run a s ∧ rest ∈ Regex.run b mid := by
  simp [Regex.run, List.mem_flatMap]

theorem mem_runRep_digit (lo hi : Nat) (s rest : List Char) :
    rest ∈ Regex.runRep (Regex.run .digit) lo hi s ↔
      ∃ g, lo ≤ g.length ∧ g.length ≤ hi ∧ (∀ c ∈ g, IsDecimalDigit c) ∧ s = g ++ rest := by
  induction hi generalizing lo s with
  | zero =>
    simp only [Regex.runRep]
    constructor
    · intro h
      split at h
      · rename_i hlo
        simp at h
        exact ⟨[], by simp [hlo], by simp, by simp, by simp [h]⟩
      · simp at h
    · rintro ⟨g, h1, h2, _, h4⟩
      have hg : g = [] := List.length_eq_zero.mp (by omega)
      subst hg
      simp at h1 h4
      simp [h1, h4]
  | succ hi ih =>
    simp only [Regex.runRep, List.mem_append, List.mem_flatMap]
    constructor
    · rintro (⟨mid, hmid, hrest⟩ | h)
      · obtain ⟨c, hc, hs⟩ := (mem_run_digit s mid).mp hmid
        obtain ⟨g, h1, h2, h3, h4⟩ := (ih (lo - 1) mid).mp hrest
        refine ⟨c :: g, by simp; omega, by simp; omega, ?_, by simp [hs, h4]⟩
        intro x hx
        rcases List.mem_cons.mp hx with hx | hx
        · exact hx ▸ hc
        · exact h3 x hx
      · split at h
        · rename_i hlo
          simp at h
          exact ⟨[], by simp [hlo], by simp, by simp, by simp [h]⟩
        · simp at h
    · rintro ⟨g, h1, h2, h3, h4⟩
      cases g with
      | nil =>
        right
        simp at h1 h4
        simp [h1, h4]
      | cons c g =>
        left
        refine ⟨g ++ rest, (mem_run_digit s (g ++ rest)).mpr ⟨c, h3 c (by simp), by simp [h4]⟩, ?_⟩
        refine (ih (lo - 1) (g ++ rest)).mpr ⟨g, ?_, ?_, fun x hx => h3 x (by simp [hx]), rfl⟩
        · simp at h1; omega
        · simp at h2; omega

theorem mem_run_group (s rest : List Char) :
    rest ∈ Regex.run (.rep .digit 1 3) s ↔ ∃ g, IsDigitGroup g ∧ s = g ++ rest := by
  simp only [Regex.run]
  rw [show Regex.runRep (fun s => Regex.run .digit s) 1 3 s =
    Regex.runRep (Regex.run .digit) 1 3 s from rfl, mem_runRep_digit]
  constructor
  · rintro ⟨g, h1, h2, h3, h4⟩; exact ⟨g, ⟨h1, h2, h3⟩, h4⟩
  · rintro ⟨g, ⟨h1, h2, h3⟩, h4⟩; exact ⟨g, h1, h2, h3, h4⟩

theorem isIPv4_iff_isDottedQuad (s : String) : isIPv4 s = true ↔ IsDottedQuad s := by
  simp only [isIPv4, Regex.test, List.any_eq_true, List.isEmpty_iff, ipv4Pattern]
  constructor
  · rintro ⟨r, hr, rfl⟩
    obtain ⟨m1, h1, hr⟩ := (mem_run_seq _ _ _ _).mp hr
    obtain ⟨m2, h2, hr⟩ := (mem_run_seq _ _ _ _).mp hr
    obtain ⟨m3, h3, hr⟩ := (mem_run_seq _ _ _ _).mp hr
    obtain ⟨m4, h4, hr⟩ := (mem_run_seq _ _ _ _).mp hr
    obtain ⟨m5, h5, hr⟩ := (mem_run_seq _ _ _ _).mp hr
    obtain ⟨m6, h6, hr⟩ := (mem_run_seq _ _ _ _).mp hr
    obtain ⟨a, ha, e1⟩ := (mem_run_group _ _).mp h1
    obtain ⟨b, hb, e3⟩ := (mem_run_group _ _).mp h3
    obtain ⟨c, hc, e5⟩ := (mem_run_group _ _).mp h5
    obtain ⟨d, hd, e7⟩ := (mem_run_group _ _).mp hr
    have e2 := (mem_run_lit _ _ _).mp h2
    have e4 := (mem_run_lit _ _ _).mp h4
    have e6 := (mem_run_lit _ _ _).mp h6
    refine ⟨a, b, c, d, ha, hb, hc, hd, ?_⟩
    rw [e1, e2, e3, e4, e5, e6, e7, List.append_nil]
  · rintro ⟨a, b, c, d, ha, hb, hc, hd, hs⟩
    refine ⟨[], ?_, rfl⟩
    rw [hs]
    refine (mem_run_seq _ _ _ _).mpr ⟨_, (mem_run_group _ _).mpr ⟨a, ha, rfl⟩, ?_⟩
    refine (mem_run_seq _ _ _ _).mpr ⟨_, (mem_run_lit _ _ _).mpr rfl, ?_⟩
    refine (mem_run_seq _ _ _ _).mpr ⟨_, (mem_run_group _ _).mpr ⟨b, hb, rfl⟩, ?_⟩
    refine (mem_run_seq _ _ _ _).mpr ⟨_, (mem_run_lit _ _ _).mpr rfl, ?_⟩
    refine (mem_run_seq _ _ _ _).mpr ⟨_, (mem_run_group _ _).mpr ⟨c, hc, rfl⟩, ?_⟩
    refine (mem_run_seq _ _ _ _).mpr ⟨_, (mem_run_lit _ _ _).mpr rfl, ?_⟩
    exact (mem_run_group _ _).mpr ⟨d, hd, by simp⟩

/-! ## Lemmas on the handlers -/

theorem includesChars_iff (sub l : List Char) : includesChars sub l = true ↔ sub <:+: l := by
  induction l with
  | nil => simp [includesChars, List.isPrefixOf_iff_prefix]
  | cons c cs ih =>
    simp [includesChars, List.isPrefixOf_iff_prefix, ih, List.infix_cons_iff]

theorem includes_iff (s sub : String) : includes s sub = true ↔ Contains s sub :=
  includesChars_iff sub.data s.data

theorem includes_eq_false_iff (s sub : String) : includes s sub = false ↔ ¬ Contains s sub := by
  rw [← includes_iff, Bool.not_eq_true]

theorem orElse_empty (x : Option String) : orElse x "" = x.getD "" := by
  cases x with
  | none => rfl
  | some s =>
    by_cases h : s = ""
    · simp [orElse, h]
    · simp [orElse, h]

theorem orElse_header (request : Request) (name : String) :
    orElse (request.headers.get name) "" = headerOrEmpty request name :=
  orElse_empty _

theorem getClientIP_total (request : Request) : ∃ ip, getClientIP request = .ok ip := by
  unfold getClientIP
  simp only []
  cases whenTruthy (request.headers.get "CF-Connecting-IP") with
  | some ip => exact ⟨ip, rfl⟩
  | none =>
    cases whenTruthy (request.headers.get "X-Real-IP") with
    | some ip => exact ⟨ip, rfl⟩
    | none =>
      cases whenTruthy (request.headers.get "X-Forwarded-For") with
      | some xff => exact ⟨_, firstTrimmed_split xff⟩
      | none => exact ⟨_, rfl⟩

theorem response_new_textPlain (body : String) :
    Response.new body textPlain = .ok ⟨body, 200, ⟨[("Content-Type", "text/plain")]⟩⟩ := by
  have h : (Headers.mk [("Content-Type", "text/plain")]).get "Content-Type" =
      some "text/plain" := by decide
  simp [Response.new, textPlain, h]

theorem response_new_json (body : String) :
    Response.new body ⟨200, [("Content-Type", "application/json")]⟩ =
      .ok ⟨body, 200, ⟨[("Content-Type", "application/json")]⟩⟩ := by
  have h : (Headers.mk [("Content-Type", "application/json")]).get "Content-Type" =
      some "application/json" := by decide
  simp [Response.new, h]

theorem response_new_html (body : String) :
    Response.new body ⟨200, [("Content-Type", "text/html;charset=UTF-8")]⟩ =
      .ok ⟨body, 200, ⟨[("Content-Type", "text/html;charset=UTF-8")]⟩⟩ := by
  have h : (Headers.mk [("Content-Type", "text/html;charset=UTF-8")]).get "Content-Type" =
      some "text/html;charset=UTF-8" := by decide
  simp [Response.new, h]

theorem response_new_bare (body : String) :
    Response.new body ⟨200, []⟩ =
      .ok ⟨body, 200, ⟨[("content-type", "text/plain;charset=UTF-8")]⟩⟩ := by
  have h : (Headers.mk []).get "Content-Type" = none := by decide
  simp [Response.new, h]

theorem generateHTMLResponse_ok (clientIP : String) (request : Request) (service : String) :
    ∃ html, generateHTMLResponse clientIP request service =
      .ok ⟨html, 200, ⟨[("Content-Type", "text/html;charset=UTF-8")]⟩⟩ :=
  ⟨_, response_new_html _⟩

/-- The flag that `handleRequest` computes is the client-kind rule. -/
theorem isCLI_flag (request : Request) :
    (includes (toLowerCase (orElse (request.headers.get "User-Agent") "")) "curl" ||
      includes (toLowerCase (orElse (request.headers.get "User-Agent") "")) "wget" ||
      includes (toLowerCase (orElse (request.headers.get "User-Agent") "")) "httpie" ||
      !includes (orElse (request.headers.get "Accept") "") "text/html") =
    decide (IsCLI request) := by
  rw [Bool.eq_iff_iff]
  simp [IsCLI, orElse_header, includes_iff, includes_eq_false_iff, or_assoc]

/-- The dispatch of `handleRequest`, with the resolved IP and the client kind named. -/
theorem handleRequest_eq (request : Request) (ip : String)
    (hip : getClientIP request = .ok ip) :
    handleRequest request =
      if includes (toLowerCase request.url.hostname) "ip4.now" then
        handleIP4Request (toLowerCase request.url.pathname) ip request (decide (IsCLI request))
      else if includes (toLowerCase request.url.hostname) "ip6.now" then
        handleIP6Request (toLowerCase request.url.pathname) ip request (decide (IsCLI request))
      else
        handleMainRequest (toLowerCase request.url.pathname) ip request
          (decide (IsCLI request)) := by
  simp only [handleRequest, hip, isCLI_flag]
  rfl

theorem handleIPRequest_root (clientIP : String) (request : Request) (isCLI : Bool)
    (service : String) :
    handleIPRequest "/" clientIP request isCLI service =
      if isCLI then .ok (plainText clientIP)
      else generateHTMLResponse clientIP request service := by
  simp only [handleIPRequest, response_new_textPlain, plainText]

theorem handleIPRequest_single (clientIP : String) (request : Request) (isCLI : Bool)
    (service : String) :
    handleIPRequest "/ip" clientIP request isCLI service = .ok (plainText clientIP) ∧
    handleIPRequest "/ua" clientIP request isCLI service =
      .ok (plainText (headerOrEmpty request "User-Agent")) ∧
    handleIPRequest "/user-agent" clientIP request isCLI service =
      .ok (plainText (headerOrEmpty request "User-Agent")) ∧
    handleIPRequest "/lang" clientIP request isCLI service =
      .ok (plainText (headerOrEmpty request "Accept-Language")) ∧
    handleIPRequest "/language" clientIP request isCLI service =
      .ok (plainText (headerOrEmpty request "Accept-Language")) ∧
    handleIPRequest "/encoding" clientIP request isCLI service =
      .ok (plainText (headerOrEmpty request "Accept-Encoding")) ∧
    handleIPRequest "/mime" clientIP request isCLI service =
      .ok (plainText (headerOrEmpty request "Accept")) ∧
    handleIPRequest "/referer" clientIP request isCLI service =
      .ok (plainText (headerOrEmpty request "Referer")) ∧
    handleIPRequest "/forwarded" clientIP request isCLI service =
      .ok (plainText (headerOrEmpty request "X-Forwarded-For")) := by
  simp [handleIPRequest, response_new_textPlain, plainText, orElse_header]

theorem html_content_type :
    (Headers.mk [("Content-Type", "text/html;charset=UTF-8")]).get "Content-Type" =
      some "text/html;charset=UTF-8" := by
  decide

/-- The requests that reach the response router. -/
theorem handleRequest_routed (request : Request) (ip : String)
    (hip : getClientIP request = .ok ip)
    (hrouter : ¬ Contains (toLowerCase request.url.hostname) "ip4.now" ∨ isIPv4 ip = true) :
    ∃ service, service ∈ ["IP4.NOW", "IP6.NOW", "ipinfo.now"] ∧
      handleRequest request =
        handleIPRequest (toLowerCase request.url.pathname) ip request (decide (IsCLI request))
          service := by
  rw [handleRequest_eq request ip hip]
  by_cases h4 : includes (toLowerCase request.url.hostname) "ip4.now" = true
  · have hv4 : isIPv4 ip = true := by
      rcases hrouter with h | h
      · exact absurd ((includes_iff _ _).mp h4) h
      · exact h
    exact ⟨"IP4.NOW", by simp, by simp [h4, handleIP4Request, hv4]⟩
  · by_cases h6 : includes (toLowerCase request.url.hostname) "ip6.now" = true
    · exact ⟨"IP6.NOW", by simp, by simp [h4, h6, handleIP6Request]⟩
    · exact ⟨"ipinfo.now", by simp, by simp [h4, h6, handleMainRequest]⟩

theorem allInfo_eq (request : Request) (clientIP : String) :
    "\n".intercalate
      ["ip_addr: " ++ clientIP,
       "user_agent: " ++ headerOrEmpty request "User-Agent",
       "language: " ++ headerOrEmpty request "Accept-Language",
       "referer: " ++ headerOrEmpty request "Referer",
       "connection: " ++ headerOrEmpty request "Connection",
       "method: " ++ request.method,
       "encoding: " ++ headerOrEmpty request "Accept-Encoding",
       "mime: " ++ headerOrEmpty request "Accept",
       "via: " ++ headerOrEmpty request "Via",
       "forwarded: " ++ headerOrEmpty request "X-Forwarded-For"] ++ "\n" =
    String.join ((allFields request clientIP).map labelledLine) := by
  apply String.ext
  simp [allFields, labelledLine, String.intercalate, String.intercalate.go, String.join]

theorem handleIPRequest_all (clientIP : String) (request : Request) (isCLI : Bool)
    (service : String) :
    handleIPRequest "/all" clientIP request isCLI service =
      .ok ⟨String.join ((allFields request clientIP).map labelledLine), 200,
        ⟨[("Content-Type", "text/plain")]⟩⟩ := by
  simp only [handleIPRequest, response_new_textPlain, orElse_header, allInfo_eq]

theorem handleIPRequest_json (pathname clientIP : String) (request : Request) (isCLI : Bool)
    (service : String) (hpath : pathname = "/json" ∨ pathname = "/all.json") :
    handleIPRequest pathname clientIP request isCLI service =
      .ok ⟨stringify2 (jsonFields request clientIP), 200,
        ⟨[("Content-Type", "application/json")]⟩⟩ := by
  rcases hpath with h | h <;> subst h <;>
    simp only [handleIPRequest, response_new_json, orElse_header] <;> rfl

theorem handleIPRequest_ok (pathname clientIP : String) (request : Request) (isCLI : Bool)
    (service : String) :
    ∃ resp, handleIPRequest pathname clientIP request isCLI service = .ok resp ∧
      resp.status = 200 := by
  obtain ⟨html, hhtml⟩ := generateHTMLResponse_ok clientIP request service
  unfold handleIPRequest
  simp only [response_new_textPlain, response_new_json, hhtml]
  split <;> first
    | exact ⟨_, rfl, rfl⟩
    | (cases isCLI <;> exact ⟨_, rfl, rfl⟩)

theorem count_newline_line (kv : String × String) (hk : '\n' ∉ kv.1.data)
    (hv : '\n' ∉ kv.2.data) : (labelledLine kv).data.count '\n' = 1 := by
  simp [labelledLine, List.count_append, List.count_eq_zero_of_not_mem hk,
    List.count_eq_zero_of_not_mem hv]

theorem text_plain_content_type :
    (Headers.mk [("Content-Type", "text/plain")]).get "Content-Type" = some "text/plain" := by
  decide

theorem serialize_str (s : String) : JsonValue.serialize (.str s) = quoteJSONString s := rfl

theorem serialize_bool (b : Bool) :
    JsonValue.serialize (.bool b) = if b = true then "true" else "false" := by
  cases b <;> rfl

theorem key_prefix (k lit : String) (h : "  " ++ quoteJSONString k ++ ": " = lit) (x : String) :
    "  " ++ (quoteJSONString k ++ (": " ++ x)) = lit ++ x := by
  rw [← h]
  simp only [String.append_assoc]

theorem stringify2_jsonFields (request : Request) (ip : String) :
    stringify2 (jsonFields request ip) =
        "\x7b\n" ++
        "  \"ip_addr\": " ++ quoteJSONString ip ++ ",\n" ++
        "  \"user_agent\": " ++ quoteJSONString (headerOrEmpty request "User-Agent") ++ ",\n" ++
        "  \"language\": " ++ quoteJSONString (headerOrEmpty request "Accept-Language") ++ ",\n" ++
        "  \"referer\": " ++ quoteJSONString (headerOrEmpty request "Referer") ++ ",\n" ++
        "  \"connection\": " ++ quoteJSONString (headerOrEmpty request "Connection") ++ ",\n" ++
        "  \"method\": " ++ quoteJSONString request.method ++ ",\n" ++
        "  \"encoding\": " ++ quoteJSONString (headerOrEmpty request "Accept-Encoding") ++ ",\n" ++
        "  \"mime\": " ++ quoteJSONString (headerOrEmpty request "Accept") ++ ",\n" ++
        "  \"via\": " ++ quoteJSONString (headerOrEmpty request "Via") ++ ",\n" ++
        "  \"forwarded\": " ++ quoteJSONString (headerOrEmpty request "X-Forwarded-For") ++ ",\n" ++
        "  \"ipv4\": " ++ (if isIPv4 ip = true then "true" else "false") ++ ",\n" ++
        "  \"ipv6\": " ++ (if isIPv6 ip = true then "true" else "false") ++
        "\n\x7d" := by
  simp only [stringify2, jsonFields, allFields, List.map_cons, List.map_nil, List.cons_append,
    List.nil_append, String.intercalate, String.intercalate.go, serialize_str,
    serialize_bool, String.append_assoc,
    key_prefix "ip_addr" "  \"ip_addr\": " (by decide),
    key_prefix "user_agent" "  \"user_agent\": " (by decide),
    key_prefix "language" "  \"language\": " (by decide),
    key_prefix "referer" "  \"referer\": " (by decide),
    key_prefix "connection" "  \"connection\": " (by decide),
    key_prefix "method" "  \"method\": " (by decide),
    key_prefix "encoding" "  \"encoding\": " (by decide),
    key_prefix "mime" "  \"mime\": " (by decide),
    key_prefix "via" "  \"via\": " (by decide),
    key_prefix "forwarded" "  \"forwarded\": " (by decide),
    key_prefix "ipv4" "  \"ipv4\": " (by decide),
    key_prefix "ipv6" "  \"ipv6\": " (by decide)]

theorem allFields_keys (request : Request) (ip : String) :
    ∀ kv ∈ allFields request ip, '\n' ∉ kv.1.data := by
  intro kv hkv
  simp only [allFields, List.mem_cons, List.mem_singleton, List.not_mem_nil, or_false] at hkv
  rcases hkv with h | h | h | h | h | h | h | h | h | h <;> subst h <;> dsimp only <;> decide

theorem count_newline_lines (fields : List (String × String))
    (hk : ∀ kv ∈ fields, '\n' ∉ kv.1.data) (hv : ∀ kv ∈ fields, '\n' ∉ kv.2.data) :
    (String.join (fields.map labelledLine)).data.count '\n' = fields.length := by
  rw [String.data_join, List.count_flatten]
  induction fields with
  | nil => rfl
  | cons kv rest ih =>
    have h1 := count_newline_line kv (hk kv (by simp)) (hv kv (by simp))
    have h2 := ih (fun x hx => hk x (by simp [hx])) (fun x hx => hv x (by simp [hx]))
    simp only [List.map_cons, List.sum_cons, List.length_cons, h1, h2]
    omega

theorem intercalate_go_mem (c : Char) (sep : String) (l : List String) (acc : String)
    (h : c ∈ (String.intercalate.go acc sep l).data) :
    c ∈ acc.data ∨ c ∈ sep.data ∨ ∃ v ∈ l, c ∈ v.data := by
  induction l generalizing acc with
  | nil => exact Or.inl h
  | cons a as ih =>
    rcases ih (acc ++ sep ++ a) h with h1 | h1 | ⟨v, hv, hc⟩
    · simp only [String.data_append, List.mem_append] at h1
      rcases h1 with (h1 | h1) | h1
      · exact Or.inl h1
      · exact Or.inr (Or.inl h1)
      · exact Or.inr (Or.inr ⟨a, by simp, h1⟩)
    · exact Or.inr (Or.inl h1)
    · exact Or.inr (Or.inr ⟨v, by simp [hv], hc⟩)

theorem headers_get_noLineFeed (h : Headers) (name v : String)
    (hh : ∀ e ∈ h.entries, '\n' ∉ e.2.data) (hv : h.get name = some v) : '\n' ∉ v.data := by
  unfold Headers.get at hv
  have hvals : ∀ x ∈ (h.entries.filter (fun e => lowerName e.1 = lowerName name)).map Prod.snd,
      '\n' ∉ x.data := by
    intro x hx
    obtain ⟨e, he, rfl⟩ := List.mem_map.mp hx
    exact hh e (List.mem_filter.mp he).1
  split at hv
  · exact absurd hv (by simp)
  · rename_i a as heq
    rw [heq] at hvals
    simp only [Option.some.injEq] at hv
    subst hv
    intro hc
    rcases intercalate_go_mem '\n' ", " as a hc with h1 | h1 | ⟨x, hx, h1⟩
    · exact hvals a (by simp) h1
    · exact absurd h1 (by decide)
    · exact hvals x (by simp [hx]) h1

theorem headerOrEmpty_noLineFeed (request : Request) (name : String)
    (h : NoLineFeed request) : '\n' ∉ (headerOrEmpty request name).data := by
  unfold headerOrEmpty
  cases hv : request.headers.get name with
  | none => decide
  | some v => exact headers_get_noLineFeed _ _ _ h.1 hv

theorem whenTruthy_eq_some {x : Option String} {v : String} (h : whenTruthy x = some v) :
    x = some v := by
  cases x with
  | none => simp [whenTruthy] at h
  | some s =>
    by_cases hs : s = ""
    · simp [whenTruthy, hs] at h
    · simp [whenTruthy, hs] at h
      rw [h]

theorem mem_trimChars {c : Char} {cs : List Char} (h : c ∈ trimChars cs) : c ∈ cs := by
  unfold trimChars at h
  rw [List.mem_reverse] at h
  have h1 := (List.dropWhile_sublist _).subset h
  rw [List.mem_reverse] at h1
  exact (List.dropWhile_sublist _).subset h1

theorem getClientIP_noLineFeed (request : Request) (ip : String)
    (h : NoLineFeed request) (hip : getClientIP request = .ok ip) : '\n' ∉ ip.data := by
  unfold getClientIP at hip
  simp only [] at hip
  split at hip
  · rename_i v hv
    simp only [Except.ok.injEq] at hip
    subst hip
    exact headers_get_noLineFeed _ _ _ h.1 (whenTruthy_eq_some hv)
  · split at hip
    · rename_i v hv
      simp only [Except.ok.injEq] at hip
      subst hip
      exact headers_get_noLineFeed _ _ _ h.1 (whenTruthy_eq_some hv)
    · split at hip
      · rename_i v hv
        rw [firstTrimmed_split] at hip
        simp only [Except.ok.injEq] at hip
        subst hip
        intro hc
        have h1 := (List.takeWhile_sublist _).subset (mem_trimChars hc)
        exact headers_get_noLineFeed _ _ _ h.1 (whenTruthy_eq_some hv) h1
      · simp only [Except.ok.injEq] at hip
        subst hip
        decide

theorem allFields_noLineFeed (request : Request) (ip : String) (h : NoLineFeed request)
    (hip : getClientIP request = .ok ip) : ∀ kv ∈ allFields request ip, '\n' ∉ kv.2.data := by
  intro kv hkv
  simp only [allFields, List.mem_cons, List.mem_singleton, List.not_mem_nil, or_false] at hkv
  rcases hkv with h' | h' | h' | h' | h' | h' | h' | h' | h' | h' <;> subst h' <;> dsimp only
  · exact getClientIP_noLineFeed request ip h hip
  · exact headerOrEmpty_noLineFeed _ _ h
  · exact headerOrEmpty_noLineFeed _ _ h
  · exact headerOrEmpty_noLineFeed _ _ h
  · exact headerOrEmpty_noLineFeed _ _ h
  · exact h.2
  · exact headerOrEmpty_noLineFeed _ _ h
  · exact headerOrEmpty_noLineFeed _ _ h
  · exact headerOrEmpty_noLineFeed _ _ h
  · exact headerOrEmpty_noLineFeed _ _ h

/-! ## Lemmas on the services and the page -/

theorem handleIPRequest_default (pathname clientIP : String) (request : Request) (isCLI : Bool)
    (service : String) (hpath : pathname ∉ routedPaths) :
    handleIPRequest pathname clientIP request isCLI service =
      if isCLI then .ok (plainText clientIP)
      else generateHTMLResponse clientIP request service := by
  simp only [routedPaths, List.mem_cons, List.mem_singleton, List.not_mem_nil, or_false,
    not_or] at hpath
  obtain ⟨h1, h2, h3, h4, h5, h6, h7, h8, h9, h10, h11, h12, h13⟩ := hpath
  unfold handleIPRequest
  simp only [response_new_textPlain, plainText]

theorem contains_toLowerCase (s sub : String) (h : Contains s sub) :
    Contains (toLowerCase s) (toLowerCase sub) :=
  List.IsInfix.map lowerChar h

theorem isCLI_of_curl (request : Request)
    (h : Contains (headerOrEmpty request "User-Agent") "curl") : IsCLI request :=
  Or.inl (contains_toLowerCase _ _ h)

/-- The answer of the IPv4-only service to an address that is not IPv4. -/
theorem handleRequest_ip4_fixed (request : Request) (ip : String)
    (hhost : Contains (toLowerCase request.url.hostname) "ip4.now")
    (hip : getClientIP request = .ok ip) (hv4 : isIPv4 ip = false) :
    handleRequest request =
      if IsCLI request then .ok ip4NotAvailableText
      else generateHTMLResponse "IPv4 not available" request "IP4.NOW" := by
  rw [handleRequest_eq request ip hip, if_pos ((includes_iff _ _).mpr hhost)]
  simp only [handleIP4Request, hv4, Bool.not_false, if_true, decide_eq_true_eq,
    response_new_bare, ip4NotAvailableText]

theorem generateHTMLResponse_ne_text (clientIP : String) (request : Request)
    (service : String) :
    generateHTMLResponse clientIP request service ≠ .ok ip4NotAvailableText := by
  obtain ⟨html, hhtml⟩ := generateHTMLResponse_ok clientIP request service
  rw [hhtml]
  intro h
  simp only [Except.ok.injEq, ip4NotAvailableText, Response.mk.injEq] at h
  exact absurd h.2.2 (by decide)

theorem getClientIP_congr (r₁ r₂ : Request) (hh : r₁.headers = r₂.headers) :
    getClientIP r₁ = getClientIP r₂ := by
  simp only [getClientIP, hh]

theorem isCLI_congr (r₁ r₂ : Request) (hh : r₁.headers = r₂.headers) :
    IsCLI r₁ ↔ IsCLI r₂ := by
  simp only [IsCLI, headerOrEmpty, hh]

theorem generateHTMLResponse_congr (clientIP service : String) (r₁ r₂ : Request)
    (hh : r₁.headers = r₂.headers) (hm : r₁.method = r₂.method) :
    generateHTMLResponse clientIP r₁ service = generateHTMLResponse clientIP r₂ service := by
  simp only [generateHTMLResponse, hh, hm]

theorem handleIPRequest_congr (pathname clientIP service : String) (isCLI : Bool)
    (r₁ r₂ : Request) (hh : r₁.headers = r₂.headers) (hm : r₁.method = r₂.method) :
    handleIPRequest pathname clientIP r₁ isCLI service =
      handleIPRequest pathname clientIP r₂ isCLI service := by
  simp only [handleIPRequest, generateHTMLResponse_congr clientIP service r₁ r₂ hh hm, hh, hm]

/-- The request enters `handleRequest` only through its lower-cased host name
and path, its headers and its method. -/
theorem handleRequest_congr (r₁ r₂ : Request)
    (hhost : toLowerCase r₁.url.hostname = toLowerCase r₂.url.hostname)
    (hpath : toLowerCase r₁.url.pathname = toLowerCase r₂.url.pathname)
    (hh : r₁.headers = r₂.headers) (hm : r₁.method = r₂.method) :
    handleRequest r₁ = handleRequest r₂ := by
  obtain ⟨ip, hip⟩ := getClientIP_total r₂
  have hip₁ : getClientIP r₁ = .ok ip := by rw [getClientIP_congr r₁ r₂ hh, hip]
  have hcli : decide (IsCLI r₁) = decide (IsCLI r₂) := by
    simp only [isCLI_congr r₁ r₂ hh]
  rw [handleRequest_eq r₁ ip hip₁, handleRequest_eq r₂ ip hip, hhost, hpath, hcli]
  simp only [handleIP4Request, handleIP6Request, handleMainRequest,
    handleIPRequest_congr _ _ _ _ r₁ r₂ hh hm,
    generateHTMLResponse_congr _ _ r₁ r₂ hh hm]

theorem handleIPRequest_service_plainPath (pathname clientIP : String) (request : Request)
    (isCLI : Bool) (s₁ s₂ : String) (hpath : pathname ∈ plainPaths) :
    handleIPRequest pathname clientIP request isCLI s₁ =
      handleIPRequest pathname clientIP request isCLI s₂ := by
  simp only [plainPaths, List.mem_cons, List.mem_singleton, List.not_mem_nil, or_false]
    at hpath
  rcases hpath with h | h | h | h | h | h | h | h | h | h | h | h <;> subst h <;>
    simp only [handleIPRequest]

theorem handleIPRequest_service_cli (pathname clientIP : String) (request : Request)
    (s₁ s₂ : String) :
    handleIPRequest pathname clientIP request true s₁ =
      handleIPRequest pathname clientIP request true s₂ := by
  by_cases hplain : pathname ∈ plainPaths
  · exact handleIPRequest_service_plainPath _ _ _ _ _ _ hplain
  · by_cases hroot : pathname = "/"
    · subst hroot
      simp only [handleIPRequest_root, if_true]
    · have hnot : pathname ∉ routedPaths := by
        simp only [plainPaths, List.mem_cons, List.mem_singleton, List.not_mem_nil, or_false,
          not_or] at hplain
        simp only [routedPaths, List.mem_cons, List.mem_singleton, List.not_mem_nil, or_false,
          not_or]
        exact ⟨hroot, hplain⟩
      simp only [handleIPRequest_default _ _ _ _ _ hnot, if_true]

theorem handleRequest_ip6 (request : Request) (ip : String)
    (h6 : Contains (toLowerCase request.url.hostname) "ip6.now")
    (h4 : ¬ Contains (toLowerCase request.url.hostname) "ip4.now")
    (hip : getClientIP request = .ok ip) :
    handleRequest request =
      handleIPRequest (toLowerCase request.url.pathname) ip request
        (decide (IsCLI request)) "IP6.NOW" := by
  rw [handleRequest_eq request ip hip, if_neg (fun h => h4 ((includes_iff _ _).mp h)),
    if_pos ((includes_iff _ _).mpr h6), handleIP6Request]

theorem handleRequest_main (request : Request) (ip : String)
    (h4 : ¬ Contains (toLowerCase request.url.hostname) "ip4.now")
    (h6 : ¬ Contains (toLowerCase request.url.hostname) "ip6.now")
    (hip : getClientIP request = .ok ip) :
    handleRequest request =
      handleIPRequest (toLowerCase request.url.pathname) ip request
        (decide (IsCLI request)) "ipinfo.now" := by
  rw [handleRequest_eq request ip hip, if_neg (fun h => h4 ((includes_iff _ _).mp h)),
    if_neg (fun h => h6 ((includes_iff _ _).mp h)), handleMainRequest]

theorem intercalate_go_data (sep : String) (l : List String) (acc : String) :
    (String.intercalate.go acc sep l).data =
      acc.data ++ l.flatMap (fun x => sep.data ++ x.data) := by
  induction l generalizing acc with
  | nil => simp [String.intercalate.go]
  | cons a as ih =>
    simp [String.intercalate.go, ih, List.flatMap_cons, List.append_assoc]

theorem intercalate_cons_data (sep x : String) (xs : List String) :
    (sep.intercalate (x :: xs)).data = x.data ++ xs.flatMap (fun y => sep.data ++ y.data) :=
  intercalate_go_data sep xs x

/-- Consecutive lines of a page are a substring of the page. -/
theorem contains_intercalate (sep : String) (block lines : List String) (hne : block ≠ [])
    (h : block <:+: lines) : Contains (sep.intercalate lines) (sep.intercalate block) := by
  obtain ⟨a, b, rfl⟩ := h
  cases block with
  | nil => exact absurd rfl hne
  | cons x xs =>
    unfold Contains
    cases a with
    | nil =>
      rw [List.nil_append, List.cons_append, intercalate_cons_data, intercalate_cons_data,
        List.flatMap_append, ← List.append_assoc]
      exact List.infix_append [] _ _
    | cons y ys =>
      rw [List.cons_append, List.cons_append, intercalate_cons_data, intercalate_cons_data,
        List.append_assoc, List.flatMap_append, List.cons_append, List.flatMap_cons,
        List.flatMap_append]
      refine ⟨y.data ++ ys.flatMap (fun z : String => sep.data ++ z.data) ++ sep.data,
        b.flatMap (fun z : String => sep.data ++ z.data), ?_⟩
      simp only [List.append_assoc]

theorem contains_line (sep line : String) (lines : List String) (h : line ∈ lines) :
    Contains (sep.intercalate lines) line := by
  obtain ⟨s, t, rfl⟩ := List.append_of_mem h
  exact contains_intercalate sep [line] _ (by simp) ⟨s, t, by simp⟩

theorem generateHTMLResponse_eq (clientIP : String) (request : Request) (service : String) :
    generateHTMLResponse clientIP request service =
      .ok ⟨"\n".intercalate (pageLines clientIP request service), 200,
        ⟨[("Content-Type", "text/html;charset=UTF-8")]⟩⟩ := by
  simp only [generateHTMLResponse, response_new_html, orElse_header, pageLines, serviceDomain]

theorem orDefault_header (request : Request) (name : String) :
    orDefault (headerOrEmpty request name) "N/A" = valueOrNA request name := by
  unfold orDefault headerOrEmpty valueOrNA
  cases request.headers.get name with
  | none => rfl
  | some v =>
    by_cases hv : v = ""
    · simp [hv]
    · simp [hv]

theorem contains_indented (indent a lit rest : String) (h : lit = indent ++ a) :
    Contains (lit ++ rest) (a ++ rest) := by
  subst h
  exact ⟨indent.data, [], by simp⟩

theorem contains_trans {s t u : String} (h₁ : Contains s t) (h₂ : Contains t u) :
    Contains s u :=
  List.IsInfix.trans h₂ h₁

theorem ipSection_in_page (clientIP : String) (request : Request) (service : String) :
    ipSection clientIP <:+: pageLines clientIP request service := by
  unfold pageLines
  simp only [List.append_assoc]
  exact (List.prefix_append _ _).isInfix.trans
    ((List.suffix_append _ _).isInfix.trans ((List.suffix_append _ _).isInfix.trans (List.suffix_append _ _).isInfix))

theorem detailsSection_in_page (clientIP : String) (request : Request) (service : String) :
    detailsSection clientIP (headerOrEmpty request "User-Agent")
      (headerOrEmpty request "Accept-Language") (headerOrEmpty request "Referer")
      request.method (headerOrEmpty request "Accept-Encoding")
      (headerOrEmpty request "Accept") (headerOrEmpty request "Connection")
      (headerOrEmpty request "Via") (headerOrEmpty request "X-Forwarded-For") <:+:
    pageLines clientIP request service := by
  unfold pageLines
  simp only [List.append_assoc]
  exact (List.prefix_append _ _).isInfix.trans
    ((List.suffix_append _ _).isInfix.trans ((List.suffix_append _ _).isInfix.trans ((List.suffix_append _ _).isInfix.trans (List.suffix_append _ _).isInfix)))

theorem apiSection_in_page (clientIP : String) (request : Request) (service : String) :
    apiSection (serviceDomain service) clientIP (headerOrEmpty request "User-Agent")
      (headerOrEmpty request "Accept-Language") (headerOrEmpty request "Accept-Encoding")
      (headerOrEmpty request "Accept") (headerOrEmpty request "Referer")
      (headerOrEmpty request "X-Forwarded-For") <:+:
    pageLines clientIP request service := by
  unfold pageLines
  simp only [List.append_assoc]
  exact (List.prefix_append _ _).isInfix.trans
    ((List.suffix_append _ _).isInfix.trans ((List.suffix_append _ _).isInfix.trans ((List.suffix_append _ _).isInfix.trans ((List.suffix_append _ _).isInfix.trans (List.suffix_append _ _).isInfix))))

theorem row_contains (L : List String) (lit a v w : String)
    (hmem : lit ++ w ++ "</td></tr>" ∈ L) (hw : w = v)
    (hlit : lit = "                        " ++ a) :
    Contains ("\n".intercalate L) (a ++ v ++ "</td></tr>") := by
  subst hw
  refine contains_trans (contains_line _ _ _ hmem) ?_
  rw [String.append_assoc, String.append_assoc]
  exact contains_indented _ _ _ _ hlit

theorem page_contains_row (clientIP : String) (request : Request) (service : String)
    (row : String × String) (hrow : row ∈ headerRows) :
    Contains ("\n".intercalate (pageLines clientIP request service))
      (detailsRow request row) := by
  have hsec := detailsSection_in_page clientIP request service
  simp only [headerRows, List.mem_cons, List.mem_singleton, List.not_mem_nil, or_false] at hrow
  unfold detailsRow
  rcases hrow with h | h | h | h | h | h | h | h <;> subst h <;> dsimp only
  · exact row_contains _ "                        <tr><td>User Agent</td><td class=\"long-content\">" _ _ _
      (List.IsInfix.mem (by simp [detailsSection]) hsec) (orDefault_header _ _) (by decide)
  · exact row_contains _ "                        <tr><td>Language</td><td>" _ _ _
      (List.IsInfix.mem (by simp [detailsSection]) hsec) (orDefault_header _ _) (by decide)
  · exact row_contains _ "                        <tr><td>Referer</td><td>" _ _ _
      (List.IsInfix.mem (by simp [detailsSection]) hsec) (orDefault_header _ _) (by decide)
  · exact row_contains _ "                        <tr><td>Encoding</td><td>" _ _ _
      (List.IsInfix.mem (by simp [detailsSection]) hsec) (orDefault_header _ _) (by decide)
  · exact row_contains _ "                        <tr><td>MIME Type</td><td class=\"long-content\">" _ _ _
      (List.IsInfix.mem (by simp [detailsSection]) hsec) (orDefault_header _ _) (by decide)
  · exact row_contains _ "                        <tr><td>Connection</td><td>" _ _ _
      (List.IsInfix.mem (by simp [detailsSection]) hsec) (orDefault_header _ _) (by decide)
  · exact row_contains _ "                        <tr><td>Via</td><td>" _ _ _
      (List.IsInfix.mem (by simp [detailsSection]) hsec) (orDefault_header _ _) (by decide)
  · exact row_contains _ "                        <tr><td>X-Forwarded-For</td><td>" _ _ _
      (List.IsInfix.mem (by simp [detailsSection]) hsec) (orDefault_header _ _) (by decide)

theorem page_contains_ipDisplay (clientIP : String) (request : Request) (service : String) :
    Contains ("\n".intercalate (pageLines clientIP request service)) (ipDisplay clientIP) := by
  have hblock : ["                <div class=\"ip-display\" role=\"banner\" aria-live=\"polite\">",
      "                    " ++ clientIP, "                </div>"] <:+: ipSection clientIP :=
    ⟨(ipSection clientIP).take 3, (ipSection clientIP).drop 6, rfl⟩
  refine contains_trans (contains_intercalate _ _ _ (by simp)
    (hblock.trans (ipSection_in_page clientIP request service))) ?_
  simp only [String.intercalate, String.intercalate.go, ipDisplay, String.append_assoc]
  exact contains_indented "                " _ _ _ (by decide)

theorem example_contains (L : List String) (domain path value tail : String)
    (hblock : ["                <div class=\"curl-command\">$ curl " ++ domain ++ tail,
      "                <div class=\"response\">⇒ " ++ value ++ "</div>"] <:+: L)
    (htail : tail = path ++ "</div>") :
    Contains ("\n".intercalate L) (apiExample domain (path, value)) := by
  subst htail
  refine contains_trans (contains_intercalate _ _ _ (by simp) hblock) ?_
  simp only [String.intercalate, String.intercalate.go, apiExample, String.append_assoc]
  exact contains_indented "                " _ _ _ (by decide)

theorem page_contains_example (clientIP : String) (request : Request) (service : String)
    (ex : String × String) (hex : ex ∈ apiExamples request clientIP) :
    Contains ("\n".intercalate (pageLines clientIP request service))
      (apiExample (serviceDomain service) ex) := by
  have hsec := apiSection_in_page clientIP request service
  generalize hA : apiSection (serviceDomain service) clientIP (headerOrEmpty request "User-Agent")
      (headerOrEmpty request "Accept-Language") (headerOrEmpty request "Accept-Encoding")
      (headerOrEmpty request "Accept") (headerOrEmpty request "Referer")
      (headerOrEmpty request "X-Forwarded-For") = A at hsec
  simp only [apiExamples, List.mem_cons, List.mem_singleton, List.not_mem_nil, or_false] at hex
  rcases hex with h | h | h | h | h | h | h | h <;> subst h
  · exact example_contains _ _ _ _ _
      (List.IsInfix.trans ⟨A.take 3, A.drop 5, by subst hA; rfl⟩ hsec) (by decide)
  · exact example_contains _ _ _ _ _
      (List.IsInfix.trans ⟨A.take 7, A.drop 9, by subst hA; rfl⟩ hsec) (by decide)
  · exact example_contains _ _ _ _ _
      (List.IsInfix.trans ⟨A.take 11, A.drop 13, by subst hA; rfl⟩ hsec) (by decide)
  · exact example_contains _ _ _ _ _
      (List.IsInfix.trans ⟨A.take 15, A.drop 17, by subst hA; rfl⟩ hsec) (by decide)
  · exact example_contains _ _ _ _ _
      (List.IsInfix.trans ⟨A.take 19, A.drop 21, by subst hA; rfl⟩ hsec) (by decide)
  · exact example_contains _ _ _ _ _
      (List.IsInfix.trans ⟨A.take 23, A.drop 25, by subst hA; rfl⟩ hsec) (by decide)
  · exact example_contains _ _ _ _ _
      (List.IsInfix.trans ⟨A.take 27, A.drop 29, by subst hA; rfl⟩ hsec) (by decide)
  · exact example_contains _ _ _ _ _
      (List.IsInfix.trans ⟨A.take 31, A.drop 33, by subst hA; rfl⟩ hsec) (by decide)

theorem valueOrNA_of_value (request : Request) (name v : String)
    (h : request.headers.get name = some v) (hv : v ≠ "") : valueOrNA request name = v := by
  simp [valueOrNA, h, hv]

theorem valueOrNA_of_empty (request : Request) (name : String)
    (h : request.headers.get name = none ∨ request.headers.get name = some "") :
    valueOrNA request name = "N/A" := by
  rcases h with h | h <;> simp [valueOrNA, h]

theorem isIPv4_contains_dot (s : String) (h : isIPv4 s = true) : includes s "." = true := by
  obtain ⟨a, b, c, d, _, _, _, _, hs⟩ := (isIPv4_iff_isDottedQuad s).mp h
  rw [includes_iff]
  exact ⟨a, b ++ '.' :: (c ++ '.' :: d), by rw [hs]; simp⟩

theorem isIPv4_isIPv6_not_both (s : String) : ¬ (isIPv4 s = true ∧ isIPv6 s = true) := by
  rintro ⟨h4, h6⟩
  have hdot := isIPv4_contains_dot s h4
  simp [isIPv6, hdot] at h6

/-! ## Client IP resolver: theorems -/

/-- C1, as stated, fails: a `CF-Connecting-IP` header that is present with an
empty value is passed over, and the resolver answers with `X-Real-IP`. -/
theorem getClientIP_cf_empty_counterexample :
    cfEmptyRequest.headers.get "CF-Connecting-IP" = some "" ∧
      getClientIP cfEmptyRequest = .ok "10.0.0.1" ∧
      getClientIP cfEmptyRequest ≠ .ok "" := by
  decide

/-- C1, amended: for every request whose `CF-Connecting-IP` header is set to a
value that is not empty, `getClientIP` returns exactly that value, whatever
`X-Real-IP` and `X-Forwarded-For` hold. -/
theorem getClientIP_cf_connecting_ip (request : Request) (v : String)
    (hcf : request.headers.get "CF-Connecting-IP" = some v) (hv : v ≠ "") :
    getClientIP request = .ok v := by
  simp [getClientIP, hcf, whenTruthy_some hv]

theorem getClientIP_cf_connecting_ip_witness :
    allIpHeadersRequest.headers.get "X-Real-IP" = some "10.0.0.1" ∧
      allIpHeadersRequest.headers.get "X-Forwarded-For" = some "203.0.113.7, 10.0.0.2" ∧
      getClientIP allIpHeadersRequest = .ok "198.51.100.4" :=
  ⟨by decide, by decide,
    getClientIP_cf_connecting_ip allIpHeadersRequest "198.51.100.4" (by decide) (by decide)⟩

/-- C2, as stated, fails: when `X-Forwarded-For` is the only IP-related header
and its value is empty, the resolver answers "unknown", not the empty text
before the first comma. -/
theorem getClientIP_xff_empty_counterexample :
    xffEmptyRequest.headers.get "CF-Connecting-IP" = none ∧
      xffEmptyRequest.headers.get "X-Real-IP" = none ∧
      xffEmptyRequest.headers.get "X-Forwarded-For" = some "" ∧
      getClientIP xffEmptyRequest = .ok "unknown" ∧
      getClientIP xffEmptyRequest ≠
        .ok (trim ⟨"".data.takeWhile (fun c => decide (c ≠ ','))⟩) := by
  decide

/-- C2, amended: for every request in which `X-Forwarded-For` is the only
IP-related header set and its value is not empty, `getClientIP` returns the
text `first` of that value before its first comma (the whole value when it has
no comma) with the white space at both ends removed. -/
theorem getClientIP_forwarded_for_only (request : Request) (v : String)
    (hcf : request.headers.get "CF-Connecting-IP" = none)
    (hreal : request.headers.get "X-Real-IP" = none)
    (hxff : request.headers.get "X-Forwarded-For" = some v) (hv : v ≠ "") :
    ∃ first lead trail : List Char,
      (',' ∉ first ∧ (v.data = first ∨ ∃ rest, v.data = first ++ ',' :: rest)) ∧
      getClientIP request = .ok (trim ⟨first⟩) ∧
      first = lead ++ (trim ⟨first⟩).data ++ trail ∧
      (∀ c ∈ lead, isJsWhitespace c = true) ∧ (∀ c ∈ trail, isJsWhitespace c = true) ∧
      (∀ c ∈ (trim ⟨first⟩).data.head?, isJsWhitespace c = false) ∧
      (∀ c ∈ (trim ⟨first⟩).data.getLast?, isJsWhitespace c = false) := by
  obtain ⟨lead, trail, h1, h2, h3, h4, h5⟩ :=
    trimChars_spec (v.data.takeWhile (fun c => decide (c ≠ ',')))
  refine ⟨v.data.takeWhile (fun c => decide (c ≠ ',')), lead, trail,
    takeWhile_before_comma v.data, ?_, h1, h2, h3, h4, h5⟩
  simp only [getClientIP, hcf, hreal, hxff, whenTruthy_none, whenTruthy_some hv]
  exact firstTrimmed_split v

theorem getClientIP_forwarded_for_only_witness :
    getClientIP xffOnlyRequest = .ok "a" ∧
    ∃ first lead trail : List Char,
      (',' ∉ first ∧
        (" a, b, c".data = first ∨ ∃ rest, " a, b, c".data = first ++ ',' :: rest)) ∧
      getClientIP xffOnlyRequest = .ok (trim ⟨first⟩) ∧
      first = lead ++ (trim ⟨first⟩).data ++ trail ∧
      (∀ c ∈ lead, isJsWhitespace c = true) ∧ (∀ c ∈ trail, isJsWhitespace c = true) ∧
      (∀ c ∈ (trim ⟨first⟩).data.head?, isJsWhitespace c = false) ∧
      (∀ c ∈ (trim ⟨first⟩).data.getLast?, isJsWhitespace c = false) :=
  ⟨by decide,
    getClientIP_forwarded_for_only xffOnlyRequest " a, b, c" (by decide) (by decide)
      (by decide) (by decide)⟩

/-! ## IP family classifier: theorems -/

/-- C3: for every string `s`, `isIPv4 s` is true if and only if `s` is exactly
four groups of one to three decimal digits separated by single dots, with
nothing before or after and no range check on the groups; "1.2.3.4" and
"999.999.999.999" are accepted and "::1" is not. -/
theorem isIPv4_iff_dotted_quad :
    (∀ s : String, isIPv4 s = true ↔ IsDottedQuad s) ∧
      isIPv4 "1.2.3.4" = true ∧ isIPv4 "999.999.999.999" = true ∧ isIPv4 "::1" = false :=
  ⟨isIPv4_iff_isDottedQuad, by decide, by decide, by decide⟩

/-! ## Request handling: theorems -/

/-- C4: for every request, the client-kind flag that `handleRequest` computes
and hands to the service handlers is true if and only if the lower-cased
User-Agent contains "curl", "wget" or "httpie", or the Accept header (the empty
string when absent) does not contain "text/html". -/
theorem handleRequest_client_kind (request : Request) :
    ∃ isCLI : Bool, (isCLI = true ↔ IsCLI request) ∧
      handleRequest request =
        (getClientIP request >>= fun clientIP =>
          if includes (toLowerCase request.url.hostname) "ip4.now" then
            handleIP4Request (toLowerCase request.url.pathname) clientIP request isCLI
          else if includes (toLowerCase request.url.hostname) "ip6.now" then
            handleIP6Request (toLowerCase request.url.pathname) clientIP request isCLI
          else
            handleMainRequest (toLowerCase request.url.pathname) clientIP request isCLI) := by
  refine ⟨decide (IsCLI request), by simp, ?_⟩
  simp only [handleRequest, isCLI_flag]

/-- C5: for every request whose lower-cased host name contains "ip4.now" and
whose resolved IP is not IPv4-shaped, whatever the path, `handleRequest`
answers with the fixed message "IPv4 not available" instead of the router's
response: the body "IPv4 not available" and a newline for a CLI client, the
HTML page rendered with "IPv4 not available" in place of the IP for a browser,
with status 200. -/
theorem handleRequest_ip4_not_available (request : Request) (ip : String)
    (hhost : Contains (toLowerCase request.url.hostname) "ip4.now")
    (hip : getClientIP request = .ok ip) (hv4 : isIPv4 ip = false) :
    (IsCLI request → ∃ resp, handleRequest request = .ok resp ∧
        resp.body = "IPv4 not available\n" ∧ resp.status = 200) ∧
      (¬ IsCLI request →
        handleRequest request = generateHTMLResponse "IPv4 not available" request "IP4.NOW" ∧
        ∃ resp, handleRequest request = .ok resp ∧ resp.status = 200 ∧
          resp.headers.get "Content-Type" = some "text/html;charset=UTF-8") ∧
      (∀ path, handleRequest { request with url := { request.url with pathname := path } } =
        handleRequest request) := by
  have hinc := (includes_iff _ _).mpr hhost
  have key : ∀ r : Request, r.url.hostname = request.url.hostname →
      r.headers = request.headers → r.method = request.method →
      handleRequest r =
        if IsCLI request then Response.new "IPv4 not available\n" ⟨200, []⟩
        else generateHTMLResponse "IPv4 not available" request "IP4.NOW" := by
    intro r h1 h2 h3
    have hip2 : getClientIP r = .ok ip := by
      rw [← hip]; simp only [getClientIP, h2]
    have hcli : IsCLI r ↔ IsCLI request := by
      simp only [IsCLI, headerOrEmpty, h2]
    rw [handleRequest_eq r ip hip2, h1, if_pos hinc]
    simp only [handleIP4Request, hv4, Bool.not_false, if_true, decide_eq_true_eq, hcli]
    split
    · rfl
    · simp only [generateHTMLResponse, h2, h3]
  refine ⟨?_, ?_, ?_⟩
  · intro hcli
    rw [key request rfl rfl rfl, if_pos hcli, response_new_bare]
    exact ⟨_, rfl, rfl, rfl⟩
  · intro hcli
    rw [key request rfl rfl rfl, if_neg hcli]
    refine ⟨rfl, ?_⟩
    obtain ⟨html, hhtml⟩ := generateHTMLResponse_ok "IPv4 not available" request "IP4.NOW"
    rw [hhtml]
    exact ⟨_, rfl, rfl, html_content_type⟩
  · intro path
    rw [key request rfl rfl rfl,
      key { request with url := { request.url with pathname := path } } rfl rfl rfl]

/-- A witness of C5: a browser on ip4.now with an IPv6 address asks for /json. -/
theorem handleRequest_ip4_not_available_witness :
    ¬ IsCLI ip4HostV6Request ∧
    ((IsCLI ip4HostV6Request → ∃ resp, handleRequest ip4HostV6Request = .ok resp ∧
        resp.body = "IPv4 not available\n" ∧ resp.status = 200) ∧
      (¬ IsCLI ip4HostV6Request →
        handleRequest ip4HostV6Request =
          generateHTMLResponse "IPv4 not available" ip4HostV6Request "IP4.NOW" ∧
        ∃ resp, handleRequest ip4HostV6Request = .ok resp ∧ resp.status = 200 ∧
          resp.headers.get "Content-Type" = some "text/html;charset=UTF-8") ∧
      (∀ path, handleRequest
          { ip4HostV6Request with url := { ip4HostV6Request.url with pathname := path } } =
        handleRequest ip4HostV6Request)) :=
  ⟨by decide,
    handleRequest_ip4_not_available ip4HostV6Request "2001:db8::1" (by decide) (by decide)
      (by decide)⟩

/-- C6: for every call of `handleIPRequest` with a single-field path, whatever
the client kind and the service label, the response has status 200, content
type `text/plain` and a body that is the one field (the empty string for an
absent header) followed by a single newline. -/
theorem handleIPRequest_single_field (clientIP : String) (request : Request) (isCLI : Bool)
    (service : String) :
    handleIPRequest "/ip" clientIP request isCLI service = .ok (plainText clientIP) ∧
    handleIPRequest "/ua" clientIP request isCLI service =
      .ok (plainText (headerOrEmpty request "User-Agent")) ∧
    handleIPRequest "/user-agent" clientIP request isCLI service =
      .ok (plainText (headerOrEmpty request "User-Agent")) ∧
    handleIPRequest "/lang" clientIP request isCLI service =
      .ok (plainText (headerOrEmpty request "Accept-Language")) ∧
    handleIPRequest "/language" clientIP request isCLI service =
      .ok (plainText (headerOrEmpty request "Accept-Language")) ∧
    handleIPRequest "/encoding" clientIP request isCLI service =
      .ok (plainText (headerOrEmpty request "Accept-Encoding")) ∧
    handleIPRequest "/mime" clientIP request isCLI service =
      .ok (plainText (headerOrEmpty request "Accept")) ∧
    handleIPRequest "/referer" clientIP request isCLI service =
      .ok (plainText (headerOrEmpty request "Referer")) ∧
    handleIPRequest "/forwarded" clientIP request isCLI service =
      .ok (plainText (headerOrEmpty request "X-Forwarded-For")) :=
  handleIPRequest_single clientIP request isCLI service

/-- C7: for every request for the path "/" that reaches the response router, a
browser gets status 200 with the content type `text/html;charset=UTF-8` and a
CLI client gets status 200, content type `text/plain` and the resolved IP
followed by a newline. -/
theorem handleRequest_root (request : Request) (ip : String)
    (hpath : request.url.pathname = "/")
    (hip : getClientIP request = .ok ip)
    (hrouter : ¬ Contains (toLowerCase request.url.hostname) "ip4.now" ∨ isIPv4 ip = true) :
    (¬ IsCLI request →
        (∃ service, service ∈ ["IP4.NOW", "IP6.NOW", "ipinfo.now"] ∧
          handleRequest request = generateHTMLResponse ip request service) ∧
        ∃ resp, handleRequest request = .ok resp ∧ resp.status = 200 ∧
          resp.headers.get "Content-Type" = some "text/html;charset=UTF-8") ∧
      (IsCLI request → handleRequest request = .ok (plainText ip)) := by
  obtain ⟨service, hmem, hreq⟩ := handleRequest_routed request ip hip hrouter
  have hlow : toLowerCase request.url.pathname = "/" := by rw [hpath]; decide
  rw [hlow, handleIPRequest_root] at hreq
  constructor
  · intro hcli
    rw [if_neg (by simpa using hcli)] at hreq
    refine ⟨⟨service, hmem, hreq⟩, ?_⟩
    obtain ⟨html, hhtml⟩ := generateHTMLResponse_ok ip request service
    rw [hreq, hhtml]
    exact ⟨_, rfl, rfl, html_content_type⟩
  · intro hcli
    rw [if_pos (by simpa using hcli)] at hreq
    exact hreq

/-- A witness of C7: a browser and curl ask the default host for "/". -/
theorem handleRequest_root_witness :
    (¬ IsCLI browserRootRequest ∧
      ∃ resp, handleRequest browserRootRequest = .ok resp ∧ resp.status = 200 ∧
        resp.headers.get "Content-Type" = some "text/html;charset=UTF-8") ∧
    (IsCLI curlRootRequest ∧
      handleRequest curlRootRequest = .ok (plainText "198.51.100.4")) :=
  ⟨⟨by decide,
     ((handleRequest_root browserRootRequest "198.51.100.4" rfl (by decide)
        (Or.inl (by decide))).1 (by decide)).2⟩,
   ⟨by decide,
     (handleRequest_root curlRootRequest "198.51.100.4" rfl (by decide)
        (Or.inl (by decide))).2 (by decide)⟩⟩

/-- C8: every request routed to `/all` gets status 200, content type
`text/plain` and a body of exactly ten lines "key: value", each ended by a
newline, with the keys ip_addr, user_agent, language, referer, connection,
method, encoding, mime, via, forwarded in that order and the resolved IP, the
headers and the request method as values; the body holds exactly ten line
feeds when, as HTTP requires, no header value and not the method holds one. -/
theorem handleRequest_all (request : Request) (ip : String)
    (hpath : toLowerCase request.url.pathname = "/all")
    (hip : getClientIP request = .ok ip)
    (hrouter : ¬ Contains (toLowerCase request.url.hostname) "ip4.now" ∨ isIPv4 ip = true) :
    ∃ resp, handleRequest request = .ok resp ∧ resp.status = 200 ∧
      resp.headers.get "Content-Type" = some "text/plain" ∧
      resp.body = String.join ((allFields request ip).map labelledLine) ∧
      (allFields request ip).length = 10 ∧
      (NoLineFeed request → resp.body.data.count '\n' = 10) := by
  obtain ⟨service, _, hreq⟩ := handleRequest_routed request ip hip hrouter
  rw [hpath, handleIPRequest_all] at hreq
  refine ⟨_, hreq, rfl, text_plain_content_type, rfl, rfl, ?_⟩
  intro hv
  exact count_newline_lines _ (allFields_keys request ip)
    (allFields_noLineFeed request ip hv hip)

/-- A witness of C8: `/ALL` on the default host. -/
theorem handleRequest_all_witness :
    NoLineFeed allRequest ∧
    (handleRequest allRequest).map Response.body =
      .ok ("ip_addr: 198.51.100.4\nuser_agent: test-agent\nlanguage: en-US\nreferer: \n" ++
        "connection: \nmethod: GET\nencoding: \nmime: \nvia: \nforwarded: \n") ∧
    ∃ resp, handleRequest allRequest = .ok resp ∧ resp.status = 200 ∧
      resp.headers.get "Content-Type" = some "text/plain" ∧
      resp.body = String.join ((allFields allRequest "198.51.100.4").map labelledLine) ∧
      (allFields allRequest "198.51.100.4").length = 10 ∧
      (NoLineFeed allRequest → resp.body.data.count '\n' = 10) :=
  ⟨by decide, by decide,
    handleRequest_all allRequest "198.51.100.4" (by decide) (by decide) (Or.inl (by decide))⟩

/-- C9: on the default domain, `/json` and `/all.json` answer with status 200,
content type `application/json` and the 2-space-indented serialisation of an
object with the twelve keys ip_addr, user_agent, language, referer,
connection, method, encoding, mime, via, forwarded, ipv4, ipv6 in that order;
user_agent is the User-Agent header, language the Accept-Language header, ipv4
and ipv6 the classifier results on the resolved IP. -/
theorem handleRequest_json (request : Request) (ip : String)
    (hhost4 : ¬ Contains (toLowerCase request.url.hostname) "ip4.now")
    (hhost6 : ¬ Contains (toLowerCase request.url.hostname) "ip6.now")
    (hpath : toLowerCase request.url.pathname = "/json" ∨
      toLowerCase request.url.pathname = "/all.json")
    (hip : getClientIP request = .ok ip) :
    handleRequest request =
        .ok ⟨stringify2 (jsonFields request ip), 200,
          ⟨[("Content-Type", "application/json")]⟩⟩ ∧
      (Headers.mk [("Content-Type", "application/json")]).get "Content-Type" =
        some "application/json" ∧
      (jsonFields request ip).map Prod.fst =
        ["ip_addr", "user_agent", "language", "referer", "connection", "method", "encoding",
          "mime", "via", "forwarded", "ipv4", "ipv6"] ∧
      (jsonFields request ip).lookup "user_agent" =
        some (.str (headerOrEmpty request "User-Agent")) ∧
      (jsonFields request ip).lookup "language" =
        some (.str (headerOrEmpty request "Accept-Language")) ∧
      (jsonFields request ip).lookup "ipv4" = some (.bool (isIPv4 ip)) ∧
      (jsonFields request ip).lookup "ipv6" = some (.bool (isIPv6 ip)) ∧
      stringify2 (jsonFields request ip) =
        "\x7b\n" ++
        "  \"ip_addr\": " ++ quoteJSONString ip ++ ",\n" ++
        "  \"user_agent\": " ++ quoteJSONString (headerOrEmpty request "User-Agent") ++ ",\n" ++
        "  \"language\": " ++ quoteJSONString (headerOrEmpty request "Accept-Language") ++ ",\n" ++
        "  \"referer\": " ++ quoteJSONString (headerOrEmpty request "Referer") ++ ",\n" ++
        "  \"connection\": " ++ quoteJSONString (headerOrEmpty request "Connection") ++ ",\n" ++
        "  \"method\": " ++ quoteJSONString request.method ++ ",\n" ++
        "  \"encoding\": " ++ quoteJSONString (headerOrEmpty request "Accept-Encoding") ++ ",\n" ++
        "  \"mime\": " ++ quoteJSONString (headerOrEmpty request "Accept") ++ ",\n" ++
        "  \"via\": " ++ quoteJSONString (headerOrEmpty request "Via") ++ ",\n" ++
        "  \"forwarded\": " ++ quoteJSONString (headerOrEmpty request "X-Forwarded-For") ++ ",\n" ++
        "  \"ipv4\": " ++ (if isIPv4 ip = true then "true" else "false") ++ ",\n" ++
        "  \"ipv6\": " ++ (if isIPv6 ip = true then "true" else "false") ++
        "\n\x7d" := by
  refine ⟨?_, by decide, rfl, ?_, ?_, ?_, ?_, ?_⟩
  · rw [handleRequest_eq request ip hip,
      if_neg (by rw [includes_iff]; exact hhost4), if_neg (by rw [includes_iff]; exact hhost6),
      handleMainRequest, handleIPRequest_json _ _ _ _ _ hpath]
  · simp [jsonFields, allFields, List.lookup]
  · simp [jsonFields, allFields, List.lookup]
  · simp [jsonFields, allFields, List.lookup]
  · simp [jsonFields, allFields, List.lookup]
  · exact stringify2_jsonFields request ip

set_option maxRecDepth 8192 in
/-- A witness of C9: `/json` on the default host. -/
theorem handleRequest_json_witness :
    handleRequest jsonRequest =
        .ok ⟨stringify2 (jsonFields jsonRequest "198.51.100.4"), 200,
          ⟨[("Content-Type", "application/json")]⟩⟩ ∧
      stringify2 (jsonFields jsonRequest "198.51.100.4") =
        "\x7b\n  \"ip_addr\": \"198.51.100.4\",\n  \"user_agent\": \"test-agent\",\n" ++
        "  \"language\": \"en-US\",\n  \"referer\": \"\",\n  \"connection\": \"\",\n" ++
        "  \"method\": \"GET\",\n  \"encoding\": \"\",\n  \"mime\": \"\",\n  \"via\": \"\",\n" ++
        "  \"forwarded\": \"\",\n  \"ipv4\": true,\n  \"ipv6\": false\n\x7d" :=
  ⟨(handleRequest_json jsonRequest "198.51.100.4" (by decide) (by decide)
      (Or.inl (by decide)) (by decide)).1, by decide⟩

/-- C10: for every request, `handleRequest` returns a response, never an
error, and the response has status 200. -/
theorem handleRequest_total (request : Request) :
    ∃ resp, handleRequest request = .ok resp ∧ resp.status = 200 := by
  obtain ⟨ip, hip⟩ := getClientIP_total request
  rw [handleRequest_eq request ip hip]
  split
  · unfold handleIP4Request
    split
    · split
      · rw [response_new_bare]; exact ⟨_, rfl, rfl⟩
      · obtain ⟨html, hhtml⟩ := generateHTMLResponse_ok "IPv4 not available" request "IP4.NOW"
        exact ⟨_, hhtml, rfl⟩
    · exact handleIPRequest_ok _ _ _ _ _
  · split
    · exact handleIPRequest_ok _ _ _ _ _
    · exact handleIPRequest_ok _ _ _ _ _

/-! ## Resolver, services and page: further theorems -/

/-- C11: for every path that the router does not name ("/ip/" or "/nope", for
example), `handleIPRequest` returns exactly the response it returns for "/"
with the same client IP, request, client kind and service. -/
theorem handleIPRequest_other_path (pathname clientIP : String) (request : Request)
    (isCLI : Bool) (service : String) (hpath : pathname ∉ routedPaths) :
    handleIPRequest pathname clientIP request isCLI service =
      handleIPRequest "/" clientIP request isCLI service := by
  rw [handleIPRequest_default pathname clientIP request isCLI service hpath,
    handleIPRequest_root]

/-- A witness of C11: the paths "/ip/" and "/nope". -/
theorem handleIPRequest_other_path_witness :
    handleIPRequest "/ip/" "198.51.100.4" curlRootRequest true "ipinfo.now" =
        handleIPRequest "/" "198.51.100.4" curlRootRequest true "ipinfo.now" ∧
      handleIPRequest "/nope" "198.51.100.4" browserRootRequest false "IP6.NOW" =
        handleIPRequest "/" "198.51.100.4" browserRootRequest false "IP6.NOW" :=
  ⟨handleIPRequest_other_path "/ip/" "198.51.100.4" curlRootRequest true "ipinfo.now"
      (by decide),
    handleIPRequest_other_path "/nope" "198.51.100.4" browserRootRequest false "IP6.NOW"
      (by decide)⟩

/-- C12: for every request with none of `CF-Connecting-IP`, `X-Real-IP` and
`X-Forwarded-For` present, `getClientIP` returns the literal "unknown". -/
theorem getClientIP_unknown (request : Request)
    (hcf : request.headers.get "CF-Connecting-IP" = none)
    (hreal : request.headers.get "X-Real-IP" = none)
    (hxff : request.headers.get "X-Forwarded-For" = none) :
    getClientIP request = .ok "unknown" := by
  simp only [getClientIP, hcf, hreal, hxff, whenTruthy_none]

/-- A witness of C12: a request with a User-Agent and an Accept header only. -/
theorem getClientIP_unknown_witness : getClientIP noIpHeadersRequest = .ok "unknown" :=
  getClientIP_unknown noIpHeadersRequest (by decide) (by decide) (by decide)

/-- C13, as stated, fails: an `X-Real-IP` header that is present with an empty
value is passed over, and the resolver answers from `X-Forwarded-For`. -/
theorem getClientIP_real_ip_empty_counterexample :
    realIpEmptyRequest.headers.get "CF-Connecting-IP" = none ∧
      realIpEmptyRequest.headers.get "X-Real-IP" = some "" ∧
      getClientIP realIpEmptyRequest = .ok "203.0.113.7" ∧
      getClientIP realIpEmptyRequest ≠ .ok "" := by
  decide

/-- C13, amended: for every request without `CF-Connecting-IP` whose
`X-Real-IP` header is present with a value that is not empty, `getClientIP`
returns that value verbatim, whatever `X-Forwarded-For` holds. -/
theorem getClientIP_real_ip (request : Request) (v : String)
    (hcf : request.headers.get "CF-Connecting-IP" = none)
    (hreal : request.headers.get "X-Real-IP" = some v) (hv : v ≠ "") :
    getClientIP request = .ok v := by
  simp only [getClientIP, hcf, hreal, whenTruthy_none, whenTruthy_some hv]

/-- A witness of C13: `X-Real-IP` wins over `X-Forwarded-For`. -/
theorem getClientIP_real_ip_witness :
    realIpRequest.headers.get "X-Forwarded-For" = some "203.0.113.7, 10.0.0.2" ∧
      getClientIP realIpRequest = .ok "10.0.0.1" :=
  ⟨by decide, getClientIP_real_ip realIpRequest "10.0.0.1" (by decide) (by decide) (by decide)⟩

/-- C14, as stated, fails: a wget client on ip4.now with an IPv6 address has no
"curl" in its User-Agent and still gets the plain-text message, not the HTML
page. -/
theorem handleRequest_ip4_wget_counterexample :
    Contains (toLowerCase wgetIp4Request.url.hostname) "ip4.now" ∧
      getClientIP wgetIp4Request = .ok "2001:db8::1" ∧ isIPv4 "2001:db8::1" = false ∧
      ¬ Contains (headerOrEmpty wgetIp4Request "User-Agent") "curl" ∧
      handleRequest wgetIp4Request = .ok ip4NotAvailableText ∧
      handleRequest wgetIp4Request ≠
        generateHTMLResponse "IPv4 not available" wgetIp4Request "IP4.NOW" := by
  have h : handleRequest wgetIp4Request = .ok ip4NotAvailableText := by decide
  refine ⟨by decide, by decide, by decide, by decide, h, ?_⟩
  rw [h]
  exact fun heq => generateHTMLResponse_ne_text _ _ _ heq.symm

/-- C14, amended: for every request whose host name contains "ip4.now" and
whose resolved IP is not IPv4-shaped, the response is the plain-text "IPv4 not
available" message if the client kind is cli (the lower-cased User-Agent
contains "curl", "wget" or "httpie", or the Accept header does not contain
"text/html"), in particular whenever the User-Agent contains "curl", and the
HTML "IPv4 not available" page in every other case. -/
theorem handleRequest_ip4_message (request : Request) (ip : String)
    (hhost : Contains (toLowerCase request.url.hostname) "ip4.now")
    (hip : getClientIP request = .ok ip) (hv4 : isIPv4 ip = false) :
    (IsCLI request → handleRequest request = .ok ip4NotAvailableText) ∧
      (Contains (headerOrEmpty request "User-Agent") "curl" →
        handleRequest request = .ok ip4NotAvailableText) ∧
      (¬ IsCLI request →
        handleRequest request =
          generateHTMLResponse "IPv4 not available" request "IP4.NOW") := by
  have hfix := handleRequest_ip4_fixed request ip hhost hip hv4
  refine ⟨?_, ?_, ?_⟩
  · intro hcli; rw [hfix, if_pos hcli]
  · intro hcurl; rw [hfix, if_pos (isCLI_of_curl request hcurl)]
  · intro hcli; rw [hfix, if_neg hcli]

/-- A witness of C14: curl on ip4.now with the address 2001:db8::1. -/
theorem handleRequest_ip4_message_witness :
    Contains (headerOrEmpty curlIp4HostV6Request "User-Agent") "curl" ∧
      handleRequest curlIp4HostV6Request = .ok ip4NotAvailableText :=
  ⟨by decide,
    (handleRequest_ip4_message curlIp4HostV6Request "2001:db8::1" (by decide) (by decide)
      (by decide)).2.1 (by decide)⟩

/-- C15, as stated, fails: on ip4.now a client with an IPv6 address that asks
for `/ip` gets the "IPv4 not available" message, not its IP. -/
theorem handleRequest_ip_on_ip4_counterexample :
    toLowerCase curlIp4HostV6Request.url.pathname = "/ip" ∧
      getClientIP curlIp4HostV6Request = .ok "2001:db8::1" ∧
      handleRequest curlIp4HostV6Request = .ok ip4NotAvailableText ∧
      handleRequest curlIp4HostV6Request ≠ .ok (plainText "2001:db8::1") := by
  decide

/-- C15, amended: for every request that reaches the response router (the host
name does not contain "ip4.now", or the resolved IP is IPv4-shaped) and every
client kind, `handleRequest` answers `/ip` with content type `text/plain` and
the resolved IP followed by a newline, and `/ua` and `/user-agent` with
content type `text/plain` and the User-Agent value followed by a newline. -/
theorem handleRequest_ip_ua (request : Request) (ip : String)
    (hip : getClientIP request = .ok ip)
    (hrouter : ¬ Contains (toLowerCase request.url.hostname) "ip4.now" ∨ isIPv4 ip = true) :
    (toLowerCase request.url.pathname = "/ip" →
        handleRequest request = .ok (plainText ip)) ∧
      (toLowerCase request.url.pathname = "/ua" ∨
          toLowerCase request.url.pathname = "/user-agent" →
        handleRequest request = .ok (plainText (headerOrEmpty request "User-Agent"))) := by
  obtain ⟨service, _, hreq⟩ := handleRequest_routed request ip hip hrouter
  have hs := handleIPRequest_single ip request (decide (IsCLI request)) service
  constructor
  · intro hp
    rw [hreq, hp]
    exact hs.1
  · rintro (hp | hp)
    · rw [hreq, hp]
      exact hs.2.1
    · rw [hreq, hp]
      exact hs.2.2.1

/-- A witness of C15: curl asks ip4.now for `/ip` from an IPv4 address and a
browser asks ip6.now for `/User-Agent`. -/
theorem handleRequest_ip_ua_witness :
    handleRequest curlIp4HostV4Request = .ok (plainText "198.51.100.4") ∧
      (¬ IsCLI browserUaRequest ∧
        handleRequest browserUaRequest =
          .ok (plainText "Mozilla/5.0 (X11; Linux x86_64)")) :=
  ⟨(handleRequest_ip_ua curlIp4HostV4Request "198.51.100.4" (by decide)
      (Or.inr (by decide))).1 (by decide),
    by decide,
    (handleRequest_ip_ua browserUaRequest "2001:db8::1" (by decide)
      (Or.inl (by decide))).2 (Or.inr (by decide))⟩

/-- C16: path dispatch is case-insensitive: for every request, `handleRequest`
returns the same response when the path is replaced by any path with the same
lower-case form, all else equal. -/
theorem handleRequest_path_case_insensitive (request : Request) (path : String)
    (hpath : toLowerCase path = toLowerCase request.url.pathname) :
    handleRequest { request with url := { request.url with pathname := path } } =
      handleRequest request :=
  handleRequest_congr _ _ rfl hpath rfl rfl

/-- A witness of C16: `/JSON` and `/json`. -/
theorem handleRequest_path_case_insensitive_witness :
    upperJsonRequest.url.pathname = "/JSON" ∧
      handleRequest { upperJsonRequest with url := { upperJsonRequest.url with
        pathname := "/json" } } = handleRequest upperJsonRequest :=
  ⟨rfl, handleRequest_path_case_insensitive upperJsonRequest "/json" (by decide)⟩

/-- C17: the IPv6-preferred service differs from the default service only in
labelling: for every request whose response is not the HTML page (a CLI
client, or one of the paths /ip, /ua, /user-agent, /lang, /language,
/encoding, /mime, /referer, /forwarded, /all, /json, /all.json), the response
on a host name containing "ip6.now" (and not "ip4.now") is identical to the
response on a default host name, and the resolved IP goes to the router as it
is, whatever its family. -/
theorem handleRequest_ip6_same_as_default (request : Request) (host6 hostD ip : String)
    (h6 : Contains (toLowerCase host6) "ip6.now")
    (h64 : ¬ Contains (toLowerCase host6) "ip4.now")
    (hD4 : ¬ Contains (toLowerCase hostD) "ip4.now")
    (hD6 : ¬ Contains (toLowerCase hostD) "ip6.now")
    (hip : getClientIP request = .ok ip)
    (hplain : IsCLI request ∨ toLowerCase request.url.pathname ∈ plainPaths) :
    handleRequest { request with url := { request.url with hostname := host6 } } =
        handleRequest { request with url := { request.url with hostname := hostD } } ∧
      handleRequest { request with url := { request.url with hostname := host6 } } =
        handleIPRequest (toLowerCase request.url.pathname) ip request
          (decide (IsCLI request)) "IP6.NOW" := by
  have hc : ∀ host, decide (IsCLI { request with url := { request.url with hostname := host } }) =
      decide (IsCLI request) := fun host => by
    simp only [isCLI_congr { request with url := { request.url with hostname := host } }
      request rfl]
  have hg : ∀ host, getClientIP { request with url := { request.url with hostname := host } } =
      .ok ip := fun host =>
    (getClientIP_congr { request with url := { request.url with hostname := host } }
      request rfl).trans hip
  have e6 : handleRequest { request with url := { request.url with hostname := host6 } } =
      handleIPRequest (toLowerCase request.url.pathname) ip request
        (decide (IsCLI request)) "IP6.NOW" := by
    rw [handleRequest_ip6 _ ip h6 h64 (hg host6), hc host6]
    exact handleIPRequest_congr _ _ _ _ _ _ rfl rfl
  have eD : handleRequest { request with url := { request.url with hostname := hostD } } =
      handleIPRequest (toLowerCase request.url.pathname) ip request
        (decide (IsCLI request)) "ipinfo.now" := by
    rw [handleRequest_main _ ip hD4 hD6 (hg hostD), hc hostD]
    exact handleIPRequest_congr _ _ _ _ _ _ rfl rfl
  refine ⟨?_, e6⟩
  rw [e6, eD]
  rcases hplain with hcli | hpath
  · rw [decide_eq_true hcli]
    exact handleIPRequest_service_cli _ _ _ _ _
  · exact handleIPRequest_service_plainPath _ _ _ _ _ _ hpath

/-- A witness of C17: a browser asks for `/User-Agent` from an IPv6 address on
ip6.now and on ipinfo.now. -/
theorem handleRequest_ip6_same_as_default_witness :
    ¬ IsCLI browserUaRequest ∧
      handleRequest { browserUaRequest with url := { browserUaRequest.url with
          hostname := "ip6.now" } } =
        handleRequest { browserUaRequest with url := { browserUaRequest.url with
          hostname := "ipinfo.now" } } :=
  ⟨by decide,
    (handleRequest_ip6_same_as_default browserUaRequest "ip6.now" "ipinfo.now" "2001:db8::1"
      (by decide) (by decide) (by decide) (by decide) (by decide) (Or.inr (by decide))).1⟩

/-- C18: in the page that `generateHTMLResponse` renders, each header row of
the details table (User Agent, Language, Referer, Encoding, MIME Type,
Connection, Via, X-Forwarded-For) contains the header's value verbatim, no
character escaped, when the value is not empty and "N/A" when it is empty or
absent, while the IP display and the API examples embed the raw value (the
empty string when absent). -/
theorem generateHTMLResponse_embeds_values (clientIP : String) (request : Request)
    (service : String) :
    ∃ resp, generateHTMLResponse clientIP request service = .ok resp ∧
      (∀ row ∈ headerRows, Contains resp.body (detailsRow request row)) ∧
      (∀ name v, request.headers.get name = some v → v ≠ "" → valueOrNA request name = v) ∧
      (∀ name, request.headers.get name = none ∨ request.headers.get name = some "" →
        valueOrNA request name = "N/A") ∧
      Contains resp.body (ipDisplay clientIP) ∧
      (∀ ex ∈ apiExamples request clientIP,
        Contains resp.body (apiExample (serviceDomain service) ex)) := by
  refine ⟨⟨"\n".intercalate (pageLines clientIP request service), 200,
    ⟨[("Content-Type", "text/html;charset=UTF-8")]⟩⟩,
    generateHTMLResponse_eq clientIP request service, ?_, valueOrNA_of_value request,
    valueOrNA_of_empty request, ?_, ?_⟩
  · dsimp only
    exact page_contains_row clientIP request service
  · dsimp only
    exact page_contains_ipDisplay clientIP request service
  · dsimp only
    exact page_contains_example clientIP request service

/-- An instance of C18: markup in the User-Agent reaches the page as it is, and
an empty Referer shows as "N/A". -/
theorem generateHTMLResponse_embeds_values_witness :
    detailsRow markupRequest ("<tr><td>User Agent</td><td class=\"long-content\">", "User-Agent") =
        "<tr><td>User Agent</td><td class=\"long-content\">" ++
          "<script>alert(1)</script></td></tr>" ∧
      detailsRow markupRequest ("<tr><td>Referer</td><td>", "Referer") =
        "<tr><td>Referer</td><td>N/A</td></tr>" ∧
      apiExample (serviceDomain "IP6.NOW") ("/ua", headerOrEmpty markupRequest "User-Agent") =
        "<div class=\"curl-command\">$ curl ip6.now/ua</div>\n" ++
          "                <div class=\"response\">⇒ <script>alert(1)</script></div>" ∧
      ∃ resp, generateHTMLResponse "198.51.100.4" markupRequest "IP6.NOW" = .ok resp ∧
        Contains resp.body
          (detailsRow markupRequest
            ("<tr><td>User Agent</td><td class=\"long-content\">", "User-Agent")) ∧
        Contains resp.body
          (apiExample (serviceDomain "IP6.NOW")
            ("/ua", headerOrEmpty markupRequest "User-Agent")) := by
  obtain ⟨resp, hresp, hrows, _, _, _, hex⟩ :=
    generateHTMLResponse_embeds_values "198.51.100.4" markupRequest "IP6.NOW"
  exact ⟨by decide, by decide, by decide, resp, hresp, hrows _ (by decide),
    hex _ (by decide)⟩

/-- C19 fails on the code: when `X-Forwarded-For` is the only IP-related header
and its first comma-separated element is empty, `getClientIP` returns the
empty string instead of falling through to "unknown". -/
theorem getClientIP_empty_first_element :
    xffLeadingCommaRequest.headers.get "CF-Connecting-IP" = none ∧
      xffLeadingCommaRequest.headers.get "X-Real-IP" = none ∧
      xffLeadingCommaRequest.headers.get "X-Forwarded-For" = some ", 10.0.0.1" ∧
      getClientIP xffLeadingCommaRequest = .ok "" := by
  decide

/-- C20: the two classifiers are mutually exclusive: for every string,
`isIPv4` and `isIPv6` are never both true, so the `ipv4` and `ipv6` properties
of the `/json` object are never both true; both are false for "unknown" and
for "::ffff:1.2.3.4". -/
theorem isIPv4_isIPv6_exclusive :
    (∀ s : String, ¬ (isIPv4 s = true ∧ isIPv6 s = true)) ∧
      (∀ (request : Request) (ip : String),
        ¬ ((jsonFields request ip).lookup "ipv4" = some (.bool true) ∧
          (jsonFields request ip).lookup "ipv6" = some (.bool true))) ∧
      isIPv4 "unknown" = false ∧ isIPv6 "unknown" = false ∧
      isIPv4 "::ffff:1.2.3.4" = false ∧ isIPv6 "::ffff:1.2.3.4" = false := by
  refine ⟨isIPv4_isIPv6_not_both, ?_, by decide, by decide, by decide, by decide⟩
  intro request ip h
  have h4 : (jsonFields request ip).lookup "ipv4" = some (.bool (isIPv4 ip)) := by
    simp [jsonFields, allFields, List.lookup]
  have h6 : (jsonFields request ip).lookup "ipv6" = some (.bool (isIPv6 ip)) := by
    simp [jsonFields, allFields, List.lookup]
  rw [h4, h6] at h
  simp only [Option.some.injEq, JsonValue.bool.injEq] at h
  exact isIPv4_isIPv6_not_both ip h

end IpInfo
